import Mathlib

/-!
Verification of the rogue-reborn binary asset decoders (`src/map.rs`,
`src/rsb.rs`) against their natural-language specification.

The two Rust decoders are shallowly embedded here. Bytes are modelled as
`Nat` values (each `< 256` in any well-formed stream), an input buffer as a
`List Nat`, and every fallible Rust function returning
`anyhow::Result<T>` while consuming from a `Cursor` becomes a function
`Rd T := List Nat → Except MErr (T × List Nat)` returning the decoded
value together with the unconsumed tail.  `f32` fields are never
inspected arithmetically by the decoders, so a float is carried as its raw
little-endian 32-bit pattern (a `Nat < 2^32`).  `anyhow` context labels
become the `MErr.label` wrapper.  Rust panics (`unimplemented!`) are
modelled by the `Outcome.crash` constructor.
-/

namespace Rogue

/-- Decode-failure taxonomy of the two decoders.  `label` models an
`anyhow` context frame wrapped around an inner failure. -/
inductive MErr : Type where
  /-- ran off the end of the buffer (`read_exact` / `read_uNN` failure) -/
  | truncated : MErr
  /-- a length-prefixed string with declared length `< 1` -/
  | emptyString : MErr
  /-- the MAP magic string content mismatched, carrying the observed bytes -/
  | magicMismatch (observed : List Nat) : MErr
  /-- the trailing "EndMap" literal was absent -/
  | missingEnd : MErr
  /-- a dynamic-object section-header id outside the known table -/
  | unhandledId (v : Nat) : MErr
  /-- an unknown texture address mode value -/
  | badTextureMode (v : Nat) : MErr
  /-- `String::from_utf8` failed on non-UTF-8 bytes -/
  | badUtf8 : MErr
  /-- RSB version `>= 2` -/
  | unsupportedVersion (v : Nat) : MErr
  /-- RSB palette selector other than 0 or 1 -/
  | unhandledPalette (v : Nat) : MErr
  /-- a context label wrapped around an inner failure (`anyhow::Context`) -/
  | label (s : String) (e : MErr) : MErr
deriving DecidableEq, Repr

/-- The byte-stream reader monad: a Rust `fn read(buf: &mut Cursor<Vec<u8>>)
-> Result<T>` becomes a function from the remaining bytes to either an error
or the value plus the unconsumed tail. -/
def Rd (α : Type) : Type := List Nat → Except MErr (α × List Nat)

/-- Monadic unit: consume nothing, return the value. -/
def Rd.pure (a : α) : Rd α := fun bs => .ok (a, bs)

/-- Monadic bind: run the first reader, feed its tail to the second. -/
def Rd.bind (m : Rd α) (f : α → Rd β) : Rd β := fun bs =>
  match m bs with
  | .ok (a, rest) => f a rest
  | .error e => .error e

instance : Monad Rd where
  pure := Rd.pure
  bind := Rd.bind

/-- Fail with the given error. -/
def Rd.throw (e : MErr) : Rd α := fun _ => .error e

/-- `anyhow::Context`: wrap any failure of `m` with the label `s`. -/
def ctx (s : String) (m : Rd α) : Rd α := fun bs =>
  match m bs with
  | .ok r => .ok r
  | .error e => .error (.label s e)

@[simp] theorem bind_apply (m : Rd α) (f : α → Rd β) (bs : List Nat) :
    (m >>= f) bs =
      match m bs with
      | .ok (a, rest) => f a rest
      | .error e => .error e := rfl

@[simp] theorem pure_apply (a : α) (bs : List Nat) :
    (Pure.pure a : Rd α) bs = .ok (a, bs) := rfl

@[simp] theorem ctx_apply (s : String) (m : Rd α) (bs : List Nat) :
    ctx s m bs =
      match m bs with
      | .ok r => .ok r
      | .error e => .error (.label s e) := rfl

@[simp] theorem throw_apply (e : MErr) (bs : List Nat) :
    (Rd.throw e : Rd α) bs = .error e := rfl

/-- `true` on `Except.ok`, `false` on `Except.error`. -/
def exceptIsOk : Except MErr α → Bool
  | .ok _ => true
  | .error _ => false

/-! ## Byte primitives (the Rust `byteorder`/`ReadMapBytes` layer) -/

/-- `read_u8`: one byte. -/
def read_u8 : Rd Nat := fun bs =>
  match bs with
  | [] => .error .truncated
  | b :: rest => .ok (b, rest)

/-- `read_u16::<LE>`: two bytes, low byte first. -/
def read_u16 : Rd Nat := do
  let b0 ← read_u8
  let b1 ← read_u8
  Rd.pure (b0 + 2 ^ 8 * b1)

/-- `read_u32::<LE>`: four bytes, low byte first. -/
def read_u32 : Rd Nat := do
  let b0 ← read_u8
  let b1 ← read_u8
  let b2 ← read_u8
  let b3 ← read_u8
  Rd.pure (b0 + 2 ^ 8 * b1 + 2 ^ 16 * b2 + 2 ^ 24 * b3)

/-- `read_f32::<LE>`: the decoders never compute with float values, so a
float is carried as its raw 32-bit little-endian pattern. -/
def read_f32 : Rd Nat := read_u32

/-- `read_bool`: byte value 1 is `true`, anything else `false` (never an
error). -/
def read_bool : Rd Bool := do
  let b ← ctx "could not read bool" read_u8
  Rd.pure (b == 1)

/-- `read_exact` into an `n`-byte buffer. -/
def read_exact (n : Nat) : Rd (List Nat) := fun bs =>
  if bs.length < n then .error .truncated
  else .ok (bs.take n, bs.drop n)

/-- `read_cstring`: 32-bit length `L`, failing when `L < 1`, then exactly
`L` bytes with the final terminator byte stripped, yielding the `L - 1`
content bytes. -/
def read_cstring : Rd (List Nat) := do
  let len ← ctx "could not read length" read_u32
  if len < 1 then Rd.throw .emptyString
  else do
    let raw ← ctx "could not read bytes" (read_exact len)
    Rd.pure (raw.take (len - 1))

/-- `read_f32_xy`. -/
def read_f32_xy : Rd (Nat × Nat) := do
  let x ← ctx "x" read_f32
  let y ← ctx "y" read_f32
  Rd.pure (x, y)

/-- `read_f32_xyz`. -/
def read_f32_xyz : Rd (Nat × Nat × Nat) := do
  let xy ← read_f32_xy
  let z ← ctx "z" read_f32
  Rd.pure (xy.1, xy.2, z)

/-- A Rust `for i in 0..n { v.push(r(i)?) }` loop: read `n` records in
sequence, the record reader receiving the loop index (for its context
label). -/
def readLoop (r : Nat → Rd α) : Nat → Nat → Rd (List α)
  | _, 0 => Rd.pure []
  | i, Nat.succ k => do
    let x ← r i
    let xs ← readLoop r (i + 1) k
    Rd.pure (x :: xs)

/-! ## Encoders and round-trip lemmas

The encoders below are the byte-level inverses of the primitive readers;
they exist so that theorems can quantify over all well-formed streams
("for every value of these fields, a buffer laid out as ... decodes
to ..."). -/

/-- Little-endian 4-byte encoding of a `Nat < 2^32`. -/
def encU32 (n : Nat) : List Nat :=
  [n % 2 ^ 8, n / 2 ^ 8 % 2 ^ 8, n / 2 ^ 16 % 2 ^ 8, n / 2 ^ 24 % 2 ^ 8]

/-- One-byte encoding. -/
def encU8 (b : Nat) : List Nat := [b]

/-- Little-endian 2-byte encoding of a `Nat < 2^16`. -/
def encU16 (n : Nat) : List Nat := [n % 2 ^ 8, n / 2 ^ 8 % 2 ^ 8]

/-- Length-prefixed string encoding: 32-bit length `content.length + 1`,
the content bytes, and a single terminator byte. -/
def encCString (content : List Nat) : List Nat :=
  encU32 (content.length + 1) ++ content ++ [0]

@[simp] theorem read_u8_enc (b : Nat) (rest : List Nat) :
    read_u8 (encU8 b ++ rest) = .ok (b, rest) := rfl

theorem read_u16_enc (n : Nat) (h : n < 2 ^ 16) (rest : List Nat) :
    read_u16 (encU16 n ++ rest) = .ok (n, rest) := by
  simp only [read_u16, encU16, bind_apply, read_u8, List.cons_append,
    List.nil_append]
  simp only [Rd.pure, Except.ok.injEq, Prod.mk.injEq, and_true]
  omega

theorem read_u32_enc (n : Nat) (h : n < 2 ^ 32) (rest : List Nat) :
    read_u32 (encU32 n ++ rest) = .ok (n, rest) := by
  simp only [read_u32, encU32, bind_apply, read_u8, List.cons_append,
    List.nil_append]
  simp only [Rd.pure, Except.ok.injEq, Prod.mk.injEq, and_true]
  omega

theorem read_f32_enc (n : Nat) (h : n < 2 ^ 32) (rest : List Nat) :
    read_f32 (encU32 n ++ rest) = .ok (n, rest) := read_u32_enc n h rest

theorem read_exact_enc (xs rest : List Nat) :
    read_exact xs.length (xs ++ rest) = .ok (xs, rest) := by
  simp [read_exact, List.take_left, List.drop_left]

/-- Well-formedness bound letting a string content round-trip through its
32-bit length prefix. -/
def StrOk (content : List Nat) : Prop := content.length + 1 < 2 ^ 32

theorem read_cstring_enc (s : List Nat) (h : StrOk s) (rest : List Nat) :
    read_cstring (encCString s ++ rest) = .ok (s, rest) := by
  have hre : read_exact (s.length + 1) (s ++ 0 :: rest)
      = .ok (s ++ [0], rest) := by
    have h2 := read_exact_enc (s ++ [0]) rest
    simpa using h2
  have hu := read_u32_enc (s.length + 1) h (s ++ 0 :: rest)
  have htake : (s ++ [0]).take s.length = s := List.take_left s [0]
  simp only [read_cstring, encCString, List.append_assoc, List.cons_append,
    List.nil_append, bind_apply, ctx_apply]
  rw [hu]
  simp [Rd.pure, hre, htake]

/-- Concatenate the encodings of a list of records. -/
def encAll (e : α → List Nat) : List α → List Nat
  | [] => []
  | x :: xs => e x ++ encAll e xs

/-! ## RSB decoder (`src/rsb.rs`)

Rust panics (`unimplemented!`) are modelled by `Outcome.crash`; a normal
return is `Outcome.val`. -/

/-- Result of a Rust function that may panic instead of returning. -/
inductive Outcome (α : Type) : Type where
  | crash (msg : String) : Outcome α
  | val (a : α) : Outcome α
deriving DecidableEq, Repr

/-- The color-depth bitmask: bits per RGBA channel (`BitMask` in
`rsb.rs`). -/
structure BitMask where
  r : Nat
  g : Nat
  b : Nat
  a : Nat
deriving DecidableEq, Repr

/-- `BitMask::bits`: the total bit depth. -/
def BitMask.bits (m : BitMask) : Nat := m.r + m.g + m.b + m.a

/-- `BitMask::is_argb`: ARGB order iff the channel depths sum to exactly
32. -/
def BitMask.is_argb (m : BitMask) : Bool := m.bits == 32

/-- `BitMask::try_new`: four little-endian u32 channel widths, in r, g, b,
a order. -/
def BitMask.try_new : Rd BitMask := do
  let r ← read_u32
  let g ← read_u32
  let b ← read_u32
  let a ← read_u32
  Rd.pure ⟨r, g, b, a⟩

/-- A palette entry (`PaletteColor` in `rsb.rs`), stored b, g, r, a. -/
structure PaletteColor where
  b : Nat
  g : Nat
  r : Nat
  a : Nat
deriving DecidableEq, Repr

/-- `PaletteColor::new`. -/
def PaletteColor.new (b g r a : Nat) : PaletteColor := ⟨b, g, r, a⟩

/-- A decoded pixel (`Pixel` in `rsb.rs`). -/
inductive Pixel : Type where
  /-- when `version == 0` and `palette == 1`: an index into the palette -/
  | PaletteColorIndex (i : Nat) : Pixel
  /-- packed ARGB value, used when the bitmask channels sum to 32 bits -/
  | Argb (bits : Nat) : Pixel
  /-- packed BGRA value, used otherwise -/
  | Bgra (bits : Nat) : Pixel
deriving DecidableEq, Repr

/-- `Pixel::masked`: channel width 0 yields `None`; otherwise build the
mask `((1 << channel) - 1) << shift` and extract.  The Rust source works
in `u32`; over the `Nat` embedding the arithmetic is identical whenever
`channel < 32` and `channel + shift ≤ 32` (which every bitmask with
`bits() ≤ 32` satisfies at every call site below), since then the mask
fits in 32 bits and no shift overflows. -/
def Pixel.masked (value channel shift : Nat) : Option Nat :=
  if channel > 0 then
    some ((value &&& (((1 <<< channel) - 1) <<< shift)) >>> shift)
  else
    none

/-- `Pixel::r`: red channel.  Panics on a palette-index pixel. -/
def Pixel.r : Pixel → BitMask → Outcome (Option Nat)
  | .PaletteColorIndex _, _ => .crash "not implemented"
  | .Argb bits, bitmask => .val (Pixel.masked bits bitmask.r bitmask.a)
  | .Bgra bits, bitmask => .val (Pixel.masked bits bitmask.r (bitmask.b + bitmask.g))

/-- `Pixel::g`: green channel.  Panics on a palette-index pixel. -/
def Pixel.g : Pixel → BitMask → Outcome (Option Nat)
  | .PaletteColorIndex _, _ => .crash "not implemented"
  | .Argb bits, bitmask => .val (Pixel.masked bits bitmask.g (bitmask.a + bitmask.r))
  | .Bgra bits, bitmask => .val (Pixel.masked bits bitmask.g bitmask.b)

/-- `Pixel::b`: blue channel.  Panics on a palette-index pixel. -/
def Pixel.b : Pixel → BitMask → Outcome (Option Nat)
  | .PaletteColorIndex _, _ => .crash "not implemented"
  | .Argb bits, bitmask => .val (Pixel.masked bits bitmask.b (bitmask.a + bitmask.r + bitmask.g))
  | .Bgra bits, bitmask => .val (Pixel.masked bits bitmask.b 0)

/-- `Pixel::a`: alpha channel.  Panics on a palette-index pixel. -/
def Pixel.a : Pixel → BitMask → Outcome (Option Nat)
  | .PaletteColorIndex _, _ => .crash "not implemented"
  | .Argb bits, bitmask => .val (Pixel.masked bits bitmask.a 0)
  | .Bgra bits, bitmask => .val (Pixel.masked bits bitmask.a (bitmask.b + bitmask.g + bitmask.r))

/-- The 16-bit companion pixel (`MaskedPixel` in `rsb.rs`), present only
when `version == 0` and `palette == 1`. -/
structure MaskedPixel where
  v : Nat
deriving DecidableEq, Repr

/-- `MaskedPixel::masked`: the `u16` analogue of `Pixel::masked` (same
remark about `Nat` faithfulness, with 16 for 32). -/
def MaskedPixel.masked (p : MaskedPixel) (channel shift : Nat) : Option Nat :=
  if channel > 0 then
    some ((p.v &&& (((1 <<< channel) - 1) <<< shift)) >>> shift)
  else
    none

/-- `MaskedPixel::r`: shift 0. -/
def MaskedPixel.r (p : MaskedPixel) (bitmask : BitMask) : Option Nat :=
  p.masked bitmask.r 0

/-- `MaskedPixel::g`: shift `r`. -/
def MaskedPixel.g (p : MaskedPixel) (bitmask : BitMask) : Option Nat :=
  p.masked bitmask.g bitmask.r

/-- `MaskedPixel::b`: shift `g + r`. -/
def MaskedPixel.b (p : MaskedPixel) (bitmask : BitMask) : Option Nat :=
  p.masked bitmask.b (bitmask.g + bitmask.r)

/-- `MaskedPixel::a`: shift `b + g + r`. -/
def MaskedPixel.a (p : MaskedPixel) (bitmask : BitMask) : Option Nat :=
  p.masked bitmask.a (bitmask.b + bitmask.g + bitmask.r)

/-- `slice::windows(4)`: every contiguous 4-byte window, overlapping,
stepping one byte at a time.  (This is what `Rsb::read` actually iterates
over for the palette — see the C3 analysis.) -/
def windows4 : List Nat → List (Nat × Nat × Nat × Nat)
  | x0 :: x1 :: x2 :: x3 :: rest => (x0, x1, x2, x3) :: windows4 (x1 :: x2 :: x3 :: rest)
  | _ => []

theorem windows4_length : ∀ l : List Nat, (windows4 l).length = l.length - 3
  | [] => rfl
  | [_] => rfl
  | [_, _] => rfl
  | [_, _, _] => rfl
  | _ :: x1 :: x2 :: x3 :: rest => by
    have ih := windows4_length (x1 :: x2 :: x3 :: rest)
    simp only [windows4, List.length_cons, ih]
    omega

/-- The palette-color list `Rsb::read` builds from the 1024 raw palette
bytes: one entry per `windows(4)` window, bytes in (b, g, r, a) order. -/
def paletteColorsOf (tmp : List Nat) : List PaletteColor :=
  (windows4 tmp).map (fun w => PaletteColor.new w.1 w.2.1 w.2.2.1 w.2.2.2)

/-- The decoded RSB texture (`Rsb` in `rsb.rs`, minus the filename, which
is I/O bookkeeping outside the decoder). -/
structure Rsb where
  version : Nat
  width : Nat
  height : Nat
  palette : Option Nat
  palette_colors : Option (List PaletteColor)
  bitmask : BitMask
  pixels : List Pixel
  masked_pixels : Option (List MaskedPixel)
deriving DecidableEq, Repr

/-- `Option::is_some_and(|x| x == 1)`. -/
def isSomeAndOne : Option Nat → Bool
  | some x => x == 1
  | none => false

/-- The pixel-reading loop of `Rsb::read`: `width * height` iterations;
each reads a 1-byte palette index when `version == 0 && palette == 1`,
otherwise a packed little-endian u16 tagged `Argb`/`Bgra` by
`bitmask.is_argb()`. -/
def readPixels (version : Nat) (palette : Option Nat) (bitmask : BitMask) :
    Nat → Rd (List Pixel)
  | 0 => Rd.pure []
  | Nat.succ k => do
    let pixel ←
      if version == 0 && isSomeAndOne palette then do
        let tmp ← read_exact 1
        Rd.pure (Pixel.PaletteColorIndex tmp.headI)
      else do
        let value ← read_u16
        Rd.pure (if bitmask.is_argb then Pixel.Argb value else Pixel.Bgra value)
    let rest ← readPixels version palette bitmask k
    Rd.pure (pixel :: rest)

/-- The masked-pixel loop of `Rsb::read`: `width * height` little-endian
u16 values. -/
def readMaskedPixels : Nat → Rd (List MaskedPixel)
  | 0 => Rd.pure []
  | Nat.succ k => do
    let value ← read_u16
    let rest ← readMaskedPixels k
    Rd.pure (MaskedPixel.mk value :: rest)

/-- `rsb::read` (the decoding part, after the whole file has been slurped
into the buffer): version gate, dimensions, the (version, palette-mode)
state machine, the pixel array, and the optional second bitmask plus
masked-pixel array. -/
def Rsb.read : Rd Rsb := do
  let version ← read_u32
  if version ≥ 2 then Rd.throw (.unsupportedVersion version)
  else do
    let width ← read_u32
    let height ← read_u32
    let st ←
      if version == 0 then do
        let palette ← read_u32
        if palette == 0 then do
          let bm ← BitMask.try_new
          Rd.pure (some palette, (none : Option (List PaletteColor)), bm)
        else if palette == 1 then do
          let tmp ← read_exact (256 * 4)
          Rd.pure (some palette, some (paletteColorsOf tmp), BitMask.mk 0 0 0 0)
        else Rd.throw (.unhandledPalette palette)
      else do
        let bm ← BitMask.try_new
        Rd.pure ((none : Option Nat), (none : Option (List PaletteColor)), bm)
    let palette := st.1
    let palette_colors := st.2.1
    let bitmask0 := st.2.2
    let size := width * height
    let pixels ← readPixels version palette bitmask0 size
    if version == 0 && isSomeAndOne palette then do
      let bm ← BitMask.try_new
      let masked ← readMaskedPixels size
      Rd.pure { version := version, width := width, height := height,
                palette := palette, palette_colors := palette_colors,
                bitmask := bm, pixels := pixels,
                masked_pixels := some masked }
    else
      Rd.pure { version := version, width := width, height := height,
                palette := palette, palette_colors := palette_colors,
                bitmask := bitmask0, pixels := pixels,
                masked_pixels := none }

theorem bitmask_try_new_enc (r g b a : Nat) (hr : r < 2 ^ 32)
    (hg : g < 2 ^ 32) (hb : b < 2 ^ 32) (ha : a < 2 ^ 32) (rest : List Nat) :
    BitMask.try_new (encU32 r ++ (encU32 g ++ (encU32 b ++ (encU32 a ++ rest))))
      = .ok (⟨r, g, b, a⟩, rest) := by
  simp only [BitMask.try_new, bind_apply, read_u32_enc r hr,
    read_u32_enc g hg, read_u32_enc b hb, read_u32_enc a ha]
  rfl

/-- In palette mode the pixel loop consumes one index byte per pixel. -/
theorem readPixels_palette1_enc (bm : BitMask) :
    ∀ (idx tail : List Nat),
      readPixels 0 (some 1) bm idx.length (idx ++ tail)
        = .ok (idx.map Pixel.PaletteColorIndex, tail)
  | [], tail => rfl
  | x :: idx, tail => by
    have ih := readPixels_palette1_enc bm idx tail
    have hre : read_exact 1 ((x :: idx) ++ tail) = .ok ([x], idx ++ tail) := by
      simp [read_exact]
    simp only [List.length_cons, readPixels, isSomeAndOne, bind_apply,
      beq_self_eq_true, Bool.and_self, if_true, hre, Rd.pure, List.headI,
      ih, List.map_cons]

/-- In palette mode every pixel the loop produces is a
`PaletteColorIndex`. -/
theorem readPixels_palette1_mem (bm : BitMask) :
    ∀ (n : Nat) (bs : List Nat) (out : List Pixel) (rest : List Nat),
      readPixels 0 (some 1) bm n bs = .ok (out, rest) →
      ∀ p ∈ out, ∃ i, p = Pixel.PaletteColorIndex i := by
  intro n
  induction n with
  | zero =>
    intro bs out rest hout p hp
    simp only [readPixels, Rd.pure, Except.ok.injEq, Prod.mk.injEq] at hout
    obtain ⟨h1, _⟩ := hout
    subst h1
    cases hp
  | succ k ih =>
    intro bs out rest hout p hp
    simp only [readPixels, isSomeAndOne, bind_apply, beq_self_eq_true,
      Bool.and_self, if_true] at hout
    match bs with
    | [] => simp [read_exact] at hout
    | x :: l =>
      have hre : read_exact 1 (x :: l) = .ok ([x], l) := by
        simp [read_exact]
      rw [hre] at hout
      simp only [Rd.pure, List.headI, bind_apply] at hout
      match hrec : readPixels 0 (some 1) bm k l with
      | .error e => rw [hrec] at hout; cases hout
      | .ok (out', rest') =>
        rw [hrec] at hout
        simp only [Rd.pure, Except.ok.injEq, Prod.mk.injEq] at hout
        obtain ⟨h1, _⟩ := hout
        subst h1
        rcases List.mem_cons.mp hp with h | h
        · exact ⟨x, h⟩
        · exact ih l out' rest' hrec p h

/-- The masked-pixel loop consumes one little-endian u16 per pixel. -/
theorem readMaskedPixels_enc :
    ∀ (mvals tail : List Nat), (∀ v ∈ mvals, v < 2 ^ 16) →
      readMaskedPixels mvals.length (encAll encU16 mvals ++ tail)
        = .ok (mvals.map MaskedPixel.mk, tail)
  | [], tail, _ => rfl
  | v :: mvals, tail, h => by
    have hv : v < 2 ^ 16 := h v (by simp)
    have ih := readMaskedPixels_enc mvals tail (fun x hx => h x (by simp [hx]))
    simp only [List.length_cons, readMaskedPixels, bind_apply, encAll,
      List.append_assoc, read_u16_enc v hv, ih, Rd.pure, List.map_cons]

/-- Round-trip for `Rsb::read` in the (version 0, palette 1) state: the
full layout is version, width, height, palette selector 1, the 1024 raw
palette bytes, one palette-index byte per pixel, the second bitmask, and
one u16 masked pixel per pixel. -/
theorem rsb_read_v0p1_enc (w h : Nat) (pb idx mvals : List Nat)
    (r g b a : Nat) (hw : w < 2 ^ 32) (hh : h < 2 ^ 32)
    (hwh : w * h < 2 ^ 32)
    (hr : r < 2 ^ 32) (hg : g < 2 ^ 32) (hb : b < 2 ^ 32) (ha : a < 2 ^ 32)
    (hpb : pb.length = 1024) (hidx : idx.length = w * h)
    (hm : mvals.length = w * h) (hmv : ∀ v ∈ mvals, v < 2 ^ 16)
    (rest : List Nat) :
    Rsb.read (encU32 0 ++ encU32 w ++ encU32 h ++ encU32 1 ++ pb ++ idx
        ++ encU32 r ++ encU32 g ++ encU32 b ++ encU32 a
        ++ encAll encU16 mvals ++ rest)
      = .ok ({ version := 0, width := w, height := h, palette := some 1,
               palette_colors := some (paletteColorsOf pb),
               bitmask := ⟨r, g, b, a⟩,
               pixels := idx.map Pixel.PaletteColorIndex,
               masked_pixels := some (mvals.map MaskedPixel.mk) }, rest) := by
  have hpe : read_exact 1024 (pb ++ (idx
      ++ (encU32 r ++ (encU32 g ++ (encU32 b ++ (encU32 a
      ++ (encAll encU16 mvals ++ rest))))))) = .ok (pb, idx
      ++ (encU32 r ++ (encU32 g ++ (encU32 b ++ (encU32 a
      ++ (encAll encU16 mvals ++ rest)))))) := by
    have h2 := read_exact_enc pb (idx
      ++ (encU32 r ++ (encU32 g ++ (encU32 b ++ (encU32 a
      ++ (encAll encU16 mvals ++ rest))))))
    rw [hpb] at h2
    exact h2
  have hpix := readPixels_palette1_enc (BitMask.mk 0 0 0 0) idx
    (encU32 r ++ (encU32 g ++ (encU32 b ++ (encU32 a
      ++ (encAll encU16 mvals ++ rest)))))
  rw [hidx] at hpix
  have hbm := bitmask_try_new_enc r g b a hr hg hb ha
    (encAll encU16 mvals ++ rest)
  have hmp := readMaskedPixels_enc mvals rest hmv
  rw [hm] at hmp
  simp only [Rsb.read, bind_apply, List.append_assoc,
    read_u32_enc 0 (by norm_num), read_u32_enc w hw, read_u32_enc h hh,
    read_u32_enc 1 (by norm_num)]
  norm_num
  simp [read_u32_enc w hw, read_u32_enc h hh, read_u32_enc 1 (by norm_num),
    hpe, hpix, hbm, hmp, Rd.pure, isSomeAndOne]

/-! ## Claim C1: packed-pixel channel extraction -/

/-- The channel-extraction formula exactly as the spec phrases it: a
channel is present iff its declared width is positive, and its value is
`(raw & (((1 << width) - 1) << shift)) >> shift`. -/
def specChannelExtract (raw width shift : Nat) : Option Nat :=
  if width > 0 then
    some ((raw &&& (((1 <<< width) - 1) <<< shift)) >>> shift)
  else
    none

theorem masked_eq_none_iff (v c s : Nat) :
    Pixel.masked v c s = none ↔ c = 0 := by
  unfold Pixel.masked
  split <;> simp_all <;> omega

/-- C1: for every bit-channel mask and packed pixel value, a channel is
extracted iff its declared width is positive (width 0 yields `none`), the
value follows the spec mask-and-shift formula, and the two layouts use the
claimed mirrored shift schemes — ARGB: R at A, G at A+R, B at A+R+G, A at
0; BGRA: R at B+G, G at B, B at 0, A at B+G+R.  The bounds keep the `Nat`
embedding identical to the `u32` arithmetic of the source. -/
theorem pixel_channel_shift_schemes (bm : BitMask) (raw : Nat)
    (hraw : raw < 2 ^ 32) (hbits : bm.bits ≤ 32)
    (hrw : bm.r < 32) (hgw : bm.g < 32) (hbw : bm.b < 32) (haw : bm.a < 32) :
    ((Pixel.Argb raw).r bm = .val (specChannelExtract raw bm.r bm.a)
      ∧ (Pixel.Argb raw).g bm = .val (specChannelExtract raw bm.g (bm.a + bm.r))
      ∧ (Pixel.Argb raw).b bm = .val (specChannelExtract raw bm.b (bm.a + bm.r + bm.g))
      ∧ (Pixel.Argb raw).a bm = .val (specChannelExtract raw bm.a 0))
    ∧ ((Pixel.Bgra raw).r bm = .val (specChannelExtract raw bm.r (bm.b + bm.g))
      ∧ (Pixel.Bgra raw).g bm = .val (specChannelExtract raw bm.g bm.b)
      ∧ (Pixel.Bgra raw).b bm = .val (specChannelExtract raw bm.b 0)
      ∧ (Pixel.Bgra raw).a bm = .val (specChannelExtract raw bm.a (bm.b + bm.g + bm.r)))
    ∧ (((Pixel.Argb raw).r bm = .val none ↔ bm.r = 0)
      ∧ ((Pixel.Argb raw).g bm = .val none ↔ bm.g = 0)
      ∧ ((Pixel.Argb raw).b bm = .val none ↔ bm.b = 0)
      ∧ ((Pixel.Argb raw).a bm = .val none ↔ bm.a = 0)
      ∧ ((Pixel.Bgra raw).r bm = .val none ↔ bm.r = 0)
      ∧ ((Pixel.Bgra raw).g bm = .val none ↔ bm.g = 0)
      ∧ ((Pixel.Bgra raw).b bm = .val none ↔ bm.b = 0)
      ∧ ((Pixel.Bgra raw).a bm = .val none ↔ bm.a = 0)) := by
  refine ⟨⟨rfl, rfl, rfl, rfl⟩, ⟨rfl, rfl, rfl, rfl⟩, ?_⟩
  simp only [Pixel.r, Pixel.g, Pixel.b, Pixel.a, Outcome.val.injEq]
  exact ⟨masked_eq_none_iff .., masked_eq_none_iff .., masked_eq_none_iff ..,
    masked_eq_none_iff .., masked_eq_none_iff .., masked_eq_none_iff ..,
    masked_eq_none_iff .., masked_eq_none_iff ..⟩

/-- Witness instantiating C1 at the 8/8/8/8 ARGB mask. -/
theorem pixel_channel_shift_schemes_witness :
    (Pixel.Argb 0x12345678).g (BitMask.mk 8 8 8 8)
      = .val (specChannelExtract 0x12345678 8 16) :=
  (pixel_channel_shift_schemes (BitMask.mk 8 8 8 8) 0x12345678
    (by norm_num) (by norm_num [BitMask.bits]) (by norm_num) (by norm_num)
    (by norm_num) (by norm_num)).1.2.1

/-! ## Claim C9: masked-pixel golden vectors -/

/-- C9: with bitmask `{r:5, g:6, b:5, a:0}` (16-bit depth, not ARGB), the
five 16-bit masked-pixel values 0x2946, 0x2966, 0x2145, 0x2125, 0x2105 —
stored low byte first, as the paired `read_u16` facts record — extract to
(r, g, b, a) = (6,10,5,None), (6,11,5,None), (5,10,4,None), (5,9,4,None),
(5,8,4,None). -/
theorem masked_pixel_golden_vectors :
    ((BitMask.mk 5 6 5 0).bits = 16 ∧ (BitMask.mk 5 6 5 0).is_argb = false)
    ∧ (read_u16 [0x46, 0x29] = .ok (0x2946, [])
      ∧ read_u16 [0x66, 0x29] = .ok (0x2966, [])
      ∧ read_u16 [0x45, 0x21] = .ok (0x2145, [])
      ∧ read_u16 [0x25, 0x21] = .ok (0x2125, [])
      ∧ read_u16 [0x05, 0x21] = .ok (0x2105, []))
    ∧ (MaskedPixel.r ⟨0x2946⟩ (BitMask.mk 5 6 5 0) = some 6
      ∧ MaskedPixel.g ⟨0x2946⟩ (BitMask.mk 5 6 5 0) = some 10
      ∧ MaskedPixel.b ⟨0x2946⟩ (BitMask.mk 5 6 5 0) = some 5
      ∧ MaskedPixel.a ⟨0x2946⟩ (BitMask.mk 5 6 5 0) = none)
    ∧ (MaskedPixel.r ⟨0x2966⟩ (BitMask.mk 5 6 5 0) = some 6
      ∧ MaskedPixel.g ⟨0x2966⟩ (BitMask.mk 5 6 5 0) = some 11
      ∧ MaskedPixel.b ⟨0x2966⟩ (BitMask.mk 5 6 5 0) = some 5
      ∧ MaskedPixel.a ⟨0x2966⟩ (BitMask.mk 5 6 5 0) = none)
    ∧ (MaskedPixel.r ⟨0x2145⟩ (BitMask.mk 5 6 5 0) = some 5
      ∧ MaskedPixel.g ⟨0x2145⟩ (BitMask.mk 5 6 5 0) = some 10
      ∧ MaskedPixel.b ⟨0x2145⟩ (BitMask.mk 5 6 5 0) = some 4
      ∧ MaskedPixel.a ⟨0x2145⟩ (BitMask.mk 5 6 5 0) = none)
    ∧ (MaskedPixel.r ⟨0x2125⟩ (BitMask.mk 5 6 5 0) = some 5
      ∧ MaskedPixel.g ⟨0x2125⟩ (BitMask.mk 5 6 5 0) = some 9
      ∧ MaskedPixel.b ⟨0x2125⟩ (BitMask.mk 5 6 5 0) = some 4
      ∧ MaskedPixel.a ⟨0x2125⟩ (BitMask.mk 5 6 5 0) = none)
    ∧ (MaskedPixel.r ⟨0x2105⟩ (BitMask.mk 5 6 5 0) = some 5
      ∧ MaskedPixel.g ⟨0x2105⟩ (BitMask.mk 5 6 5 0) = some 8
      ∧ MaskedPixel.b ⟨0x2105⟩ (BitMask.mk 5 6 5 0) = some 4
      ∧ MaskedPixel.a ⟨0x2105⟩ (BitMask.mk 5 6 5 0) = none) :=
  ⟨⟨rfl, rfl⟩, ⟨rfl, rfl, rfl, rfl, rfl⟩, ⟨rfl, rfl, rfl, rfl⟩,
    ⟨rfl, rfl, rfl, rfl⟩, ⟨rfl, rfl, rfl, rfl⟩, ⟨rfl, rfl, rfl, rfl⟩,
    ⟨rfl, rfl, rfl, rfl⟩⟩

/-! ## Claim C10: palette-index pixels cannot be channel-extracted -/

/-- C10: every channel accessor on a `PaletteColorIndex` pixel panics
(`unimplemented!`, modelled as `Outcome.crash`) for every bitmask; the
accessors return values only on `Argb`/`Bgra` pixels; and in the
(version 0, palette 1) state every pixel the array loop produces is a
`PaletteColorIndex`, so that array cannot be channel-extracted through
the `Pixel` interface. -/
theorem palette_index_pixel_accessor_panics :
    (∀ (bm : BitMask) (i : Nat),
      (Pixel.PaletteColorIndex i).r bm = .crash "not implemented"
      ∧ (Pixel.PaletteColorIndex i).g bm = .crash "not implemented"
      ∧ (Pixel.PaletteColorIndex i).b bm = .crash "not implemented"
      ∧ (Pixel.PaletteColorIndex i).a bm = .crash "not implemented")
    ∧ (∀ (bm : BitMask) (v : Nat),
      (∃ o, (Pixel.Argb v).r bm = .val o) ∧ (∃ o, (Pixel.Argb v).g bm = .val o)
      ∧ (∃ o, (Pixel.Argb v).b bm = .val o) ∧ (∃ o, (Pixel.Argb v).a bm = .val o)
      ∧ (∃ o, (Pixel.Bgra v).r bm = .val o) ∧ (∃ o, (Pixel.Bgra v).g bm = .val o)
      ∧ (∃ o, (Pixel.Bgra v).b bm = .val o) ∧ (∃ o, (Pixel.Bgra v).a bm = .val o))
    ∧ (∀ (bm : BitMask) (n : Nat) (bs : List Nat) (out : List Pixel) (rest : List Nat),
      readPixels 0 (some 1) bm n bs = .ok (out, rest) →
      ∀ p ∈ out, ∀ bm' : BitMask,
        p.r bm' = .crash "not implemented" ∧ p.g bm' = .crash "not implemented"
        ∧ p.b bm' = .crash "not implemented" ∧ p.a bm' = .crash "not implemented") := by
  refine ⟨fun bm i => ⟨rfl, rfl, rfl, rfl⟩,
    fun bm v => ⟨⟨_, rfl⟩, ⟨_, rfl⟩, ⟨_, rfl⟩, ⟨_, rfl⟩, ⟨_, rfl⟩, ⟨_, rfl⟩,
      ⟨_, rfl⟩, ⟨_, rfl⟩⟩, ?_⟩
  intro bm n bs out rest hout p hp bm'
  obtain ⟨i, rfl⟩ := readPixels_palette1_mem bm n bs out rest hout p hp
  exact ⟨rfl, rfl, rfl, rfl⟩

/-- Witness instantiating C10's third clause at a one-pixel palette-mode
array. -/
theorem palette_index_pixel_accessor_panics_witness :
    (Pixel.PaletteColorIndex 7).r (BitMask.mk 5 6 5 0)
      = .crash "not implemented" :=
  (palette_index_pixel_accessor_panics.2.2 (BitMask.mk 5 6 5 0) 1 [7]
    [Pixel.PaletteColorIndex 7] [] rfl (Pixel.PaletteColorIndex 7)
    (List.mem_singleton.mpr rfl) (BitMask.mk 5 6 5 0)).1

/-! ## Claim C3: the palette table the decoder actually builds -/

/-- C3 (code bug): a (version 0, palette 1) RSB decodes with a palette
table of 1021 entries — one per overlapping `windows(4)` window of the
1024 raw palette bytes — not the 256 consecutive 4-byte groups the code's
own comment, `Vec::with_capacity(256)` and field documentation describe.
The final conjunct exhibits the overlap: the second entry reuses bytes
1..4 instead of bytes 4..7. -/
theorem rsb_palette_entry_count (pb : List Nat) (hpb : pb.length = 1024)
    (rest : List Nat) :
    Rsb.read (encU32 0 ++ encU32 0 ++ encU32 0 ++ encU32 1 ++ pb
        ++ encU32 0 ++ encU32 0 ++ encU32 0 ++ encU32 0 ++ rest)
      = .ok ({ version := 0, width := 0, height := 0, palette := some 1,
               palette_colors := some (paletteColorsOf pb),
               bitmask := ⟨0, 0, 0, 0⟩, pixels := [],
               masked_pixels := some [] }, rest)
    ∧ (paletteColorsOf pb).length = 1021
    ∧ (1021 : Nat) ≠ 256
    ∧ (∀ x0 x1 x2 x3 x4 l, paletteColorsOf (x0 :: x1 :: x2 :: x3 :: x4 :: l)
        = PaletteColor.new x0 x1 x2 x3 :: PaletteColor.new x1 x2 x3 x4
          :: paletteColorsOf (x2 :: x3 :: x4 :: l)) := by
  refine ⟨?_, ?_, by norm_num, fun x0 x1 x2 x3 x4 l => rfl⟩
  · have h := rsb_read_v0p1_enc 0 0 pb [] [] 0 0 0 0 (by norm_num)
      (by norm_num) (by norm_num) (by norm_num) (by norm_num) (by norm_num)
      (by norm_num) hpb (by simp) (by simp) (by simp) rest
    have hbuf : encU32 0 ++ encU32 0 ++ encU32 0 ++ encU32 1 ++ pb
        ++ ([] : List Nat) ++ encU32 0 ++ encU32 0 ++ encU32 0 ++ encU32 0
        ++ encAll encU16 [] ++ rest
        = encU32 0 ++ encU32 0 ++ encU32 0 ++ encU32 1 ++ pb
        ++ encU32 0 ++ encU32 0 ++ encU32 0 ++ encU32 0 ++ rest := by
      simp [encAll]
    rw [hbuf] at h
    exact h
  · simp [paletteColorsOf, windows4_length, hpb]

/-- Witness instantiating C3 at the all-zero palette block. -/
theorem rsb_palette_entry_count_witness :
    (paletteColorsOf (List.replicate 1024 0)).length = 1021 :=
  (rsb_palette_entry_count (List.replicate 1024 0)
    (List.length_replicate 1024 0) []).2.1

/-! ## MAP decoder (`src/map.rs`) -/

/-- The 12 ASCII bytes of the MAP magic literal `BeginMapv2.1`. -/
def MAGIC : List Nat := [66, 101, 103, 105, 110, 77, 97, 112, 118, 50, 46, 49]

/-- The 6 ASCII bytes of the terminator literal `EndMap`. -/
def END : List Nat := [69, 110, 100, 77, 97, 112]

/-- The 7 ASCII bytes of the literal `Version`. -/
def VERSION_BYTES : List Nat := [86, 101, 114, 115, 105, 111, 110]

/-- `latin1_to_utf8`: map each byte directly to the identically-valued
code point (`c as char` in the source), not a general charset decode. -/
def latin1_to_utf8 (s : List Nat) : String :=
  String.mk (s.map Char.ofNat)

/-- Is `c` a UTF-8 continuation byte (`0x80..=0xBF`)? -/
def utf8Cont (c : Nat) : Bool := 0x80 ≤ c && c ≤ 0xBF

/-- UTF-8 validation/decoding as `String::from_utf8` performs it: code
points for a valid byte sequence, `none` for an invalid one (overlong
forms, lone continuation or lead bytes, surrogates and values beyond
U+10FFFF all rejected). -/
def utf8Decode : List Nat → Option (List Nat)
  | [] => some []
  | b :: rest =>
    if b < 0x80 then (utf8Decode rest).map (fun t => b :: t)
    else if 0xC2 ≤ b && b ≤ 0xDF then
      match rest with
      | c1 :: rest1 =>
        if utf8Cont c1 then
          (utf8Decode rest1).map (fun t => ((b - 0xC0) * 64 + (c1 - 0x80)) :: t)
        else none
      | [] => none
    else if 0xE0 ≤ b && b ≤ 0xEF then
      match rest with
      | c1 :: c2 :: rest2 =>
        if (if b = 0xE0 then 0xA0 ≤ c1 && c1 ≤ 0xBF
            else if b = 0xED then 0x80 ≤ c1 && c1 ≤ 0x9F
            else utf8Cont c1) && utf8Cont c2 then
          (utf8Decode rest2).map (fun t =>
            ((b - 0xE0) * 4096 + (c1 - 0x80) * 64 + (c2 - 0x80)) :: t)
        else none
      | _ => none
    else if 0xF0 ≤ b && b ≤ 0xF4 then
      match rest with
      | c1 :: c2 :: c3 :: rest3 =>
        if (if b = 0xF0 then 0x90 ≤ c1 && c1 ≤ 0xBF
            else if b = 0xF4 then 0x80 ≤ c1 && c1 ≤ 0x8F
            else utf8Cont c1) && utf8Cont c2 && utf8Cont c3 then
          (utf8Decode rest3).map (fun t =>
            ((b - 0xF0) * 262144 + (c1 - 0x80) * 4096
              + (c2 - 0x80) * 64 + (c3 - 0x80)) :: t)
        else none
      | _ => none
    else none

/-- `String::from_utf8` on the content bytes: the UTF-8-decoded string, or
`none` on invalid UTF-8 (the `?` conversion failure in the source). -/
def string_from_utf8 (s : List Nat) : Option String :=
  (utf8Decode s).map (fun cps => String.mk (cps.map Char.ofNat))

/-- `section_header_short`: a 32-bit id and a length-prefixed name; if the
name is literally "Version", one extra 32-bit value is read and discarded
and a second name is read in its place. -/
def section_header_short : Rd (Nat × String) := do
  let id ← ctx "failed to read material id" read_u32
  let name ← ctx "section header name" read_cstring
  if name == VERSION_BYTES then do
    let _version ← ctx "version number" read_u32
    let name2 ← ctx "texture short name" read_cstring
    Rd.pure (id, latin1_to_utf8 name2)
  else
    Rd.pure (id, latin1_to_utf8 name)

/-- `section_header`: a discarded 32-bit section byte-size, then the short
form. -/
def section_header : Rd (Nat × String) := do
  let _section_size ← ctx "failed to read section size" read_u32
  section_header_short

/-- `MapHeader`: the magic has been validated; only the creation
timestamp is kept. -/
structure MapHeader where
  timestamp : Nat
deriving DecidableEq, Repr

/-- `MapHeader::read`: a length-prefixed string whose content must equal
the 12-byte magic literal (mismatch reports the observed bytes), then the
32-bit creation timestamp. -/
def MapHeader.read : Rd MapHeader := do
  let magic ← ctx "missing magic" read_cstring
  if magic == MAGIC then do
    let timestamp ← ctx "failed to read file creation timestamp" read_u32
    Rd.pure ⟨timestamp⟩
  else
    Rd.throw (.magicMismatch magic)

/-- `TextureAddressMode`. -/
inductive TextureAddressMode : Type where
  | Opaque : TextureAddressMode
  | Wrap : TextureAddressMode
  | Clamp : TextureAddressMode
deriving DecidableEq, Repr

/-- `TextureAddressMode::read`: 0, 1 or 3; anything else fails. -/
def TextureAddressMode.read : Rd TextureAddressMode := do
  let address_mode ← ctx "texture address mode" read_u32
  if address_mode == 0 then Rd.pure .Opaque
  else if address_mode == 1 then Rd.pure .Wrap
  else if address_mode == 3 then Rd.pure .Clamp
  else Rd.throw (.badTextureMode address_mode)

/-- `Color4f` (four raw f32 bit patterns). -/
structure Color4f where
  r : Nat
  g : Nat
  b : Nat
  a : Nat
deriving DecidableEq, Repr

/-- `Color4f::read`. -/
def Color4f.read : Rd Color4f := do
  let r ← ctx "red" read_f32
  let g ← ctx "green" read_f32
  let b ← ctx "blue" read_f32
  let a ← ctx "alpha" read_f32
  Rd.pure ⟨r, g, b, a⟩

/-- `Material`. -/
structure Material where
  id : Nat
  filename : String
  name : String
  opacity : Nat
  emissive_strength : Nat
  address_mode : TextureAddressMode
  ambient : Color4f
  diffuse : Color4f
  specular : Color4f
  specular_level : Nat
  two_sided : Bool
deriving DecidableEq, Repr

/-- `Material::read`. -/
def Material.read : Rd Material := do
  let hdr ← ctx "material section header" section_header
  let filename ← ctx "texture filename" read_cstring
  let opacity ← ctx "opacity" read_f32
  let emissive_strength ← ctx "emissive strength" read_u32
  let address_mode ← TextureAddressMode.read
  let ambient ← ctx "ambient" Color4f.read
  let diffuse ← ctx "diffuse" Color4f.read
  let specular ← ctx "specular" Color4f.read
  let specular_level ← ctx "specular level" read_f32
  let two_sided ← ctx "two sided" read_bool
  Rd.pure { id := hdr.1, filename := latin1_to_utf8 filename, name := hdr.2,
            opacity := opacity, emissive_strength := emissive_strength,
            address_mode := address_mode, ambient := ambient,
            diffuse := diffuse, specular := specular,
            specular_level := specular_level, two_sided := two_sided }

/-- `Materials`. -/
structure Materials where
  id : Nat
  materials : List Material
deriving DecidableEq, Repr

/-- `Materials::read`: section header, count, that many materials. -/
def Materials.read : Rd Materials := do
  let hdr ← ctx "material list section header" section_header
  let n ← ctx "missing number of materials" read_u32
  let materials ← readLoop
    (fun i => ctx ("material section header " ++ toString i) Material.read) 0 n
  Rd.pure { id := hdr.1, materials := materials }

/-- `Vertex` (three raw f32 bit patterns). -/
structure Vertex where
  x : Nat
  y : Nat
  z : Nat
deriving DecidableEq, Repr

/-- `Vertex::read`. -/
def Vertex.read : Rd Vertex := do
  let xyz ← read_f32_xyz
  Rd.pure ⟨xyz.1, xyz.2.1, xyz.2.2⟩

/-- `FaceNormal`: a normal vector plus the scalar plane distance. -/
structure FaceNormal where
  x : Nat
  y : Nat
  z : Nat
  distance_origin_to_face : Nat
deriving DecidableEq, Repr

/-- `FaceNormal::read`. -/
def FaceNormal.read : Rd FaceNormal := do
  let xyz ← read_f32_xyz
  let dist ← ctx "distance origin to face" read_f32
  Rd.pure ⟨xyz.1, xyz.2.1, xyz.2.2, dist⟩

/-- One u16 index triple of a face. -/
def readU16Triple (what : String) (i : Nat) : Rd (Nat × Nat × Nat) := do
  let p1 ← ctx ("p1 of " ++ what ++ " " ++ toString i) read_u16
  let p2 ← ctx ("p2 of " ++ what ++ " " ++ toString i) read_u16
  let p3 ← ctx ("p3 of " ++ what ++ " " ++ toString i) read_u16
  Rd.pure (p1, p2, p3)

/-- `Faces`: three parallel arrays sharing one leading count. -/
structure Faces where
  normals : List FaceNormal
  face_indices : List (Nat × Nat × Nat)
  texture_indices : List (Nat × Nat × Nat)
deriving DecidableEq, Repr

/-- `Faces::read`: one count, then `n` normals, `n` vertex-index triples
and `n` texture-index triples. -/
def Faces.read : Rd Faces := do
  let n ← ctx "face count" read_u32
  let normals ← readLoop
    (fun i => ctx ("face normal " ++ toString i) FaceNormal.read) 0 n
  let face_indices ← readLoop (readU16Triple "face index") 0 n
  let texture_indices ← readLoop (readU16Triple "face index") 0 n
  Rd.pure { normals := normals, face_indices := face_indices,
            texture_indices := texture_indices }

/-- `NormalCoord`. -/
structure NormalCoord where
  x : Nat
  y : Nat
  z : Nat
deriving DecidableEq, Repr

/-- `NormalCoord::read`. -/
def NormalCoord.read : Rd NormalCoord := do
  let xyz ← read_f32_xyz
  Rd.pure ⟨xyz.1, xyz.2.1, xyz.2.2⟩

/-- `UvCoord`. -/
structure UvCoord where
  u : Nat
  v : Nat
deriving DecidableEq, Repr

/-- `UvCoord::read`. -/
def UvCoord.read : Rd UvCoord := do
  let u ← ctx "u" read_f32
  let v ← ctx "v" read_f32
  Rd.pure ⟨u, v⟩

/-- `TextureVertices`: three parallel arrays sharing one leading count. -/
structure TextureVertices where
  normals : List NormalCoord
  uv_coords : List UvCoord
  face_colors : List Color4f
deriving DecidableEq, Repr

/-- `TextureVertices::read`. -/
def TextureVertices.read : Rd TextureVertices := do
  let n ← ctx "vertices count" read_u32
  let normals ← readLoop
    (fun i => ctx ("normal coordinate " ++ toString i) NormalCoord.read) 0 n
  let uv_coords ← readLoop
    (fun i => ctx ("UV texture coordinate " ++ toString i) UvCoord.read) 0 n
  let face_colors ← readLoop
    (fun i => ctx ("face color " ++ toString i) Color4f.read) 0 n
  Rd.pure { normals := normals, uv_coords := uv_coords,
            face_colors := face_colors }

/-- `ObjectData`. -/
structure ObjectData where
  mn : Nat
  faces : Faces
  texture_vertices : TextureVertices
deriving DecidableEq, Repr

/-- `ObjectData::read`. -/
def ObjectData.read : Rd ObjectData := do
  let mn ← ctx "MN" read_u32
  let faces ← Faces.read
  let texture_vertices ← TextureVertices.read
  Rd.pure { mn := mn, faces := faces, texture_vertices := texture_vertices }

/-- `Collisions`: a vertex array and a face-normal array, each with its
own count. -/
structure Collisions where
  vertices : List Vertex
  faces : List FaceNormal
deriving DecidableEq, Repr

/-- `Collisions::read`. -/
def Collisions.read : Rd Collisions := do
  let n ← ctx "collision vertices count" read_u32
  let vertices ← readLoop
    (fun i => ctx ("collision vertex " ++ toString i) Vertex.read) 0 n
  let m ← ctx "collision faces count" read_u32
  let faces ← readLoop
    (fun i => ctx ("collision face normal " ++ toString i) FaceNormal.read) 0 m
  Rd.pure { vertices := vertices, faces := faces }

/-- `Tag`: two (coordinate triple, face index) pairs. -/
structure Tag where
  coord1 : Nat × Nat × Nat
  face_index_1 : Nat
  coord2 : Nat × Nat × Nat
  face_index_2 : Nat
deriving DecidableEq, Repr

/-- `Tag::read`. -/
def Tag.read : Rd Tag := do
  let p11 ← ctx "coord1 p1" read_u16
  let p21 ← ctx "coord1 p2" read_u16
  let p31 ← ctx "coord1 p3" read_u16
  let face_index_1 ← ctx "face index 1" read_u16
  let p12 ← ctx "coord2 p1" read_u16
  let p22 ← ctx "coord2 p2" read_u16
  let p32 ← ctx "coord2 p3" read_u16
  let face_index_2 ← ctx "face index 2" read_u16
  Rd.pure { coord1 := (p11, p21, p31), face_index_1 := face_index_1,
            coord2 := (p12, p22, p32), face_index_2 := face_index_2 }

/-- `EIndices`: the indexed-name list entry — a name string, a numeric
id, and a variable-length u16 index array.  Note the name goes through
`String::from_utf8`, not `latin1_to_utf8`. -/
structure EIndices where
  text : String
  mn : Nat
  indices : List Nat
deriving DecidableEq, Repr

/-- `EIndices::read`. -/
def EIndices.read : Rd (EIndices) := do
  let text ← ctx "EIndex text" read_cstring
  let mn ← ctx "EIndex MN" read_u32
  let n ← ctx "EIndex indices count" read_u32
  let indices ← readLoop (fun _ => read_u16) 0 n
  match string_from_utf8 text with
  | some s => Rd.pure { text := s, mn := mn, indices := indices }
  | none => Rd.throw .badUtf8

/-- `Object`: geometry object with its double section header
(a preserved on-disk oddity). -/
structure Object where
  id : Nat
  name : String
  object_id : Nat
  object_name : String
  vertices : List Vertex
  object_datas : List ObjectData
  collisions : Collisions
  tags : List Tag
  ind : List EIndices
deriving DecidableEq, Repr

/-- `Object::read`: two consecutive section headers, vertices, object
data, collisions, tags, then the indexed-name list. -/
def Object.read : Rd Object := do
  let hdr ← ctx "section header" section_header
  let ohdr ← ctx "object section header" section_header
  let n ← ctx "vertex count" read_u32
  let vertices ← readLoop (fun _ => Vertex.read) 0 n
  let m ← ctx "objects data count" read_u32
  let object_datas ← readLoop (fun _ => ObjectData.read) 0 m
  let collisions ← Collisions.read
  let t ← ctx "object tag count" read_u32
  let tags ← readLoop (fun _ => Tag.read) 0 t
  let ff_count ← ctx "FF count" read_u32
  let ind ← readLoop
    (fun i => ctx ("EIndices " ++ toString i) EIndices.read) 0 ff_count
  Rd.pure { id := hdr.1, name := hdr.2, object_id := ohdr.1,
            object_name := ohdr.2, vertices := vertices,
            object_datas := object_datas, collisions := collisions,
            tags := tags, ind := ind }

/-- `Geometries`. -/
structure Geometries where
  id : Nat
  objects : List Object
deriving DecidableEq, Repr

/-- `Geometries::read`. -/
def Geometries.read : Rd Geometries := do
  let hdr ← ctx "geometry list section header" section_header
  let n ← ctx "missing number of objects" read_u32
  let objects ← readLoop (fun _ => Object.read) 0 n
  Rd.pure { id := hdr.1, objects := objects }

/-- `Portal`. -/
structure Portal where
  id : Nat
  name : String
  coordinates : List Vertex
  room : Nat
  opposite_room : Nat
deriving DecidableEq, Repr

/-- `Portal::read`. -/
def Portal.read : Rd Portal := do
  let hdr ← ctx "portal" section_header
  let n ← ctx "coordinates count" read_u32
  let coordinates ← readLoop
    (fun i => ctx ("coordinate vertex " ++ toString i) Vertex.read) 0 n
  let room ← ctx "room" read_u32
  let opposite_room ← ctx "opposite room" read_u32
  Rd.pure { id := hdr.1, name := hdr.2, coordinates := coordinates,
            room := room, opposite_room := opposite_room }

/-- `Portals`. -/
structure Portals where
  id : Nat
  name : String
  portals : List Portal
deriving DecidableEq, Repr

/-- `Portals::read`. -/
def Portals.read : Rd Portals := do
  let hdr ← ctx "portals" section_header
  let n ← ctx "portal count" read_u32
  let portals ← readLoop
    (fun i => ctx ("portal " ++ toString i) Portal.read) 0 n
  Rd.pure { id := hdr.1, name := hdr.2, portals := portals }

/-- `Lights`: only the count is kept (every tested map had zero). -/
structure Lights where
  id : Nat
  name : String
  light_count : Nat
deriving DecidableEq, Repr

/-- `Lights::read`. -/
def Lights.read : Rd Lights := do
  let hdr ← ctx "lights" section_header
  let n ← ctx "light count" read_u32
  Rd.pure { id := hdr.1, name := hdr.2, light_count := n }

/-- `Vec3f` (raw f32 bit patterns). -/
structure Vec3f where
  x : Nat
  y : Nat
  z : Nat
deriving DecidableEq, Repr

/-- `Vec3f::read`. -/
def Vec3f.read : Rd Vec3f := do
  let xyz ← read_f32_xyz
  Rd.pure ⟨xyz.1, xyz.2.1, xyz.2.2⟩

/-- `Vec6f`. -/
structure Vec6f where
  x1 : Nat
  y1 : Nat
  z1 : Nat
  x2 : Nat
  y2 : Nat
  z2 : Nat
deriving DecidableEq, Repr

/-- `Vec6f::read`. -/
def Vec6f.read : Rd Vec6f := do
  let v1 ← read_f32_xyz
  let v2 ← read_f32_xyz
  Rd.pure ⟨v1.1, v1.2.1, v1.2.2, v2.1, v2.2.1, v2.2.2⟩

/-- `Vec8f`. -/
structure Vec8f where
  x1 : Nat
  y1 : Nat
  z1 : Nat
  x2 : Nat
  y2 : Nat
  z2 : Nat
  x3 : Nat
  y3 : Nat
deriving DecidableEq, Repr

/-- `Vec8f::read`. -/
def Vec8f.read : Rd Vec8f := do
  let v1 ← read_f32_xyz
  let v2 ← read_f32_xyz
  let v3 ← read_f32_xy
  Rd.pure ⟨v1.1, v1.2.1, v1.2.2, v2.1, v2.2.1, v2.2.2, v3.1, v3.2⟩

/-- `TransformationMatrix`: three axis vectors and a position. -/
structure TransformationMatrix where
  x_axis : Vec3f
  y_axis : Vec3f
  z_axis : Vec3f
  position : Vec3f
deriving DecidableEq, Repr

/-- `TransformationMatrix::read`. -/
def TransformationMatrix.read : Rd TransformationMatrix := do
  let x_axis ← ctx "transformation matrix x-axis" Vec3f.read
  let y_axis ← ctx "transformation matrix y-axis" Vec3f.read
  let z_axis ← ctx "transformation matrix z-axis" Vec3f.read
  let position ← ctx "transformation matrix position" Vec3f.read
  Rd.pure ⟨x_axis, y_axis, z_axis, position⟩

/-- `Id`: the section-header ids mapped to dynamic-object shapes. -/
inductive Id : Type where
  | Dynamic : Id
  | Animation : Id
  | RepeatableTouchplate : Id
  | Glass : Id
  | OneTimeTouchplate : Id
  | Halo : Id
  | StaticEffect : Id
deriving DecidableEq, Repr

/-- The `u32` discriminant of each `Id` variant (`Id::Dynamic as u32` and
so on). -/
def Id.toU32 : Id → Nat
  | .Dynamic => 14
  | .Animation => 15
  | .RepeatableTouchplate => 16
  | .Glass => 20
  | .OneTimeTouchplate => 25
  | .Halo => 31
  | .StaticEffect => 36

/-- `TryFrom<u32> for Id`: the guard chain of the source, failing on any
unmapped value. -/
def Id.try_from (value : Nat) : Except MErr Id :=
  if value = Id.Dynamic.toU32 then .ok .Dynamic
  else if value = Id.Animation.toU32 then .ok .Animation
  else if value = Id.RepeatableTouchplate.toU32 then .ok .RepeatableTouchplate
  else if value = Id.Glass.toU32 then .ok .Glass
  else if value = Id.OneTimeTouchplate.toU32 then .ok .OneTimeTouchplate
  else if value = Id.Halo.toU32 then .ok .Halo
  else if value = Id.StaticEffect.toU32 then .ok .StaticEffect
  else .error (.unhandledId value)

/-- `KindDynamicParamStruct`: a name, 9 floats, 2 integers. -/
structure KindDynamicParamStruct where
  name : String
  unknown1 : List Nat
  unknown2 : List Nat
deriving DecidableEq, Repr

/-- `KindDynamicParamStruct::read`. -/
def KindDynamicParamStruct.read : Rd KindDynamicParamStruct := do
  let name ← ctx "dynamic object kind struct name" read_cstring
  let unknown1 ← readLoop
    (fun i => ctx ("dynamic object kind struct unknown1 " ++ toString i)
      read_f32) 0 9
  let unknown2 ← readLoop
    (fun i => ctx ("dynamic object kind struct unknown2 " ++ toString i)
      read_u32) 0 2
  Rd.pure { name := latin1_to_utf8 name, unknown1 := unknown1,
            unknown2 := unknown2 }

/-- `KindDynamicParams`: the id-14 parameter block with its shadow-count
idiom. -/
inductive KindDynamicParams : Type where
  /-- leading count greater than zero: that many struct blocks -/
  | Struct (structs : List KindDynamicParamStruct) : KindDynamicParams
  /-- leading count exactly zero: a second count, names, 4 floats -/
  | Flat (names : List String) (unknown : List Nat) : KindDynamicParams
deriving DecidableEq, Repr

/-- `KindDynamicParams::read`: leading count; if positive that many
struct blocks and nothing else; if zero a second independent count, that
many names, then 4 trailing floats. -/
def KindDynamicParams.read : Rd KindDynamicParams := do
  let count ← ctx "dynamic object kind count" read_u32
  if count > 0 then do
    let structs ← readLoop
      (fun i => ctx ("dynamic object kind struct " ++ toString i)
        KindDynamicParamStruct.read) 0 count
    Rd.pure (.Struct structs)
  else do
    let count2 ← ctx "dynamic object flat count" read_u32
    let names ← readLoop
      (fun i => ctx ("dynamic object kind flat name " ++ toString i)
        read_cstring) 0 count2
    let unknown ← readLoop
      (fun i => ctx ("dynamic object kind flat unknown " ++ toString i)
        read_f32) 0 4
    Rd.pure (.Flat (names.map latin1_to_utf8) unknown)

/-- `DynamicObjectKindCommon`: the block shared by the id-14/15/16
payloads — transform, name, one flag integer, four sound names, then the
seven remaining strings of the source struct. -/
structure DynamicObjectKindCommon where
  tm : TransformationMatrix
  name : String
  unknown1 : Nat
  sounds : List String
  collision_type_2d : String
  collision_type_3d : String
  destruction_action : String
  destruction_category : String
  penetration_type : String
  name2 : String
  destruction_category2 : String
deriving DecidableEq, Repr

/-- `DynamicObjectKindCommon::read`. -/
def DynamicObjectKindCommon.read : Rd DynamicObjectKindCommon := do
  let tm ← ctx "transformation matrix" TransformationMatrix.read
  let name ← ctx "name" read_cstring
  let unknown1 ← ctx "unknown1" read_u32
  let sounds ← readLoop
    (fun i => ctx ("sound " ++ toString i) read_cstring) 0 4
  let collision_type_2d ← ctx "2D collision type" read_cstring
  let collision_type_3d ← ctx "3D collision type" read_cstring
  let destruction_action ← ctx "destruction action" read_cstring
  let destruction_category ← ctx "destruction category" read_cstring
  let penetration_type ← ctx "penetration type" read_cstring
  let name2 ← ctx "name2" read_cstring
  let destruction_category2 ← ctx "destruction category 2" read_cstring
  Rd.pure { tm := tm, name := latin1_to_utf8 name, unknown1 := unknown1,
            sounds := sounds.map latin1_to_utf8,
            collision_type_2d := latin1_to_utf8 collision_type_2d,
            collision_type_3d := latin1_to_utf8 collision_type_3d,
            destruction_action := latin1_to_utf8 destruction_action,
            destruction_category := latin1_to_utf8 destruction_category,
            penetration_type := latin1_to_utf8 penetration_type,
            name2 := latin1_to_utf8 name2,
            destruction_category2 := latin1_to_utf8 destruction_category2 }

/-- `DynamicObjectKind`: the seven payload shapes. -/
inductive DynamicObjectKind : Type where
  | Dynamic (common : DynamicObjectKindCommon)
      (params : KindDynamicParams) : DynamicObjectKind
  | Animation (common : DynamicObjectKindCommon) (unknown2 : Nat)
      (names : List String) (unknown3 : List Nat) (unknown4 : Nat)
      (name3 : String) (name4 : String) (animation_type : String)
      (direction : Vec3f) (distance : Nat)
      (velocity : Nat) : DynamicObjectKind
  | RepeatableTouchplate (common : DynamicObjectKindCommon) (unknown1 : Nat)
      (attachments : List String) (unknown2 : List Nat)
      (names : List String) (name2 : String) (name3 : String)
      (animation_type : String) (direction : Vec3f) (distance : Nat)
      (velocity : Nat) : DynamicObjectKind
  | Glass (name : String) : DynamicObjectKind
  | OneTimeTouchplate (collision_type_2d : String)
      (collision_type_3d : String) (coordinates : Vec6f)
      (attachments : List String) : DynamicObjectKind
  | Halo (halos : List (String × Vec8f)) : DynamicObjectKind
  | StaticEffect : DynamicObjectKind
deriving DecidableEq, Repr

/-- `DynamicObjectKind::dynamic` (id 14): common block, then the
shadow-count parameter block. -/
def DynamicObjectKind.dynamic : Rd DynamicObjectKind := do
  let common ← DynamicObjectKindCommon.read
  let params ← KindDynamicParams.read
  Rd.pure (.Dynamic common params)

/-- `DynamicObjectKind::animation` (id 15): common block, then the
animation remainder. -/
def DynamicObjectKind.animation : Rd DynamicObjectKind := do
  let common ← DynamicObjectKindCommon.read
  let unknown2 ← ctx "unknown2" read_u32
  let n ← ctx "name count" read_u32
  let names ← readLoop
    (fun i => ctx ("animation name " ++ toString i) read_cstring) 0 n
  let unknown3 ← readLoop
    (fun i => ctx ("animation unknown3 " ++ toString i) read_f32) 0 3
  let unknown4 ← ctx "animation unknown4" read_u32
  let name3 ← ctx "animation name3" read_cstring
  let name4 ← ctx "animation name4" read_cstring
  let animation_type ← ctx "animation type" read_cstring
  let direction ← ctx "animation direction" Vec3f.read
  let distance ← ctx "animation distance" read_f32
  let velocity ← ctx "animation velocity" read_f32
  Rd.pure (.Animation common unknown2 (names.map latin1_to_utf8) unknown3
    unknown4 (latin1_to_utf8 name3) (latin1_to_utf8 name4)
    (latin1_to_utf8 animation_type) direction distance velocity)

/-- `DynamicObjectKind::repeatable_touchplate` (id 16): common block,
then the touchplate remainder. -/
def DynamicObjectKind.repeatable_touchplate : Rd DynamicObjectKind := do
  let common ← DynamicObjectKindCommon.read
  let unknown1 ← ctx "ADT unknown1" read_u32
  let n ← ctx "ADT attachment count" read_u32
  let attachments ← readLoop
    (fun i => ctx ("ADT attachment " ++ toString i) read_cstring) 0 n
  let unknown2 ← readLoop
    (fun i => ctx ("ADT unknown2 " ++ toString i) read_f32) 0 3
  let m ← ctx "name count" read_u32
  let names ← readLoop
    (fun i => ctx ("ADT name " ++ toString i) read_cstring) 0 m
  let name2 ← ctx "ADT name2" read_cstring
  let name3 ← ctx "ADT name3" read_cstring
  let animation_type ← ctx "animation type" read_cstring
  let direction ← ctx "animation direction" Vec3f.read
  let distance ← ctx "animation distance" read_f32
  let velocity ← ctx "animation velocity" read_f32
  Rd.pure (.RepeatableTouchplate common unknown1
    (attachments.map latin1_to_utf8) unknown2 (names.map latin1_to_utf8)
    (latin1_to_utf8 name2) (latin1_to_utf8 name3)
    (latin1_to_utf8 animation_type) direction distance velocity)

/-- `DynamicObjectKind::glass` (id 20): a bare name, decoded with
`String::from_utf8` (not `latin1_to_utf8`). -/
def DynamicObjectKind.glass : Rd DynamicObjectKind := do
  let name ← read_cstring
  match string_from_utf8 name with
  | some s => Rd.pure (.Glass s)
  | none => Rd.throw .badUtf8

/-- `DynamicObjectKind::one_time_touchplate` (id 25). -/
def DynamicObjectKind.one_time_touchplate : Rd DynamicObjectKind := do
  let collision_type_2d ← ctx "one-time touchplate 2D collision type"
    read_cstring
  let collision_type_3d ← ctx "one-time touchplate 3D collision type"
    read_cstring
  let coordinates ← ctx "one-time touchplate coordinates" Vec6f.read
  let n ← ctx "one-time touchplate attachment count" read_u32
  let attachments ← readLoop
    (fun i => ctx ("one-time touchplate attachment name " ++ toString i)
      read_cstring) 0 n
  Rd.pure (.OneTimeTouchplate (latin1_to_utf8 collision_type_2d)
    (latin1_to_utf8 collision_type_3d) coordinates
    (attachments.map latin1_to_utf8))

/-- `DynamicObjectKind::halo` (id 31): a counted list of (name, 8-float
vector) entries. -/
def DynamicObjectKind.halo : Rd DynamicObjectKind := do
  let count ← ctx "halo count" read_u32
  let halos ← readLoop
    (fun i => do
      let name ← ctx ("halo name " ++ toString i) read_cstring
      let vec ← ctx ("halo vec " ++ toString i) Vec8f.read
      Rd.pure (latin1_to_utf8 name, vec)) 0 count
  Rd.pure (.Halo halos)

/-- `DynamicObjectKind::static_effect` (id 36): no payload. -/
def DynamicObjectKind.static_effect : Rd DynamicObjectKind :=
  Rd.pure .StaticEffect

/-- `DynamicObjectKind::read`: exhaustive dispatch from the mapped id to
its payload grammar. -/
def DynamicObjectKind.read (id : Id) : Rd DynamicObjectKind :=
  match id with
  | .Dynamic => DynamicObjectKind.dynamic
  | .Animation => DynamicObjectKind.animation
  | .RepeatableTouchplate => DynamicObjectKind.repeatable_touchplate
  | .Glass => DynamicObjectKind.glass
  | .OneTimeTouchplate => DynamicObjectKind.one_time_touchplate
  | .Halo => DynamicObjectKind.halo
  | .StaticEffect => DynamicObjectKind.static_effect

/-- `DynamicObject`. -/
structure DynamicObject where
  section_id : Nat
  section_name : String
  name : String
  tm : TransformationMatrix
  kind : DynamicObjectKind
deriving DecidableEq, Repr

/-- `DynamicObject::read`: section header, name, transformation matrix,
then `section_id.try_into()?` (a hard failure on unmapped ids) and the
dispatched payload. -/
def DynamicObject.read : Rd DynamicObject := do
  let hdr ← ctx "dynamic object section header" section_header
  let name ← ctx "name" read_cstring
  let tm ← ctx "transformation matrix" TransformationMatrix.read
  match Id.try_from hdr.1 with
  | .error e => Rd.throw e
  | .ok kind_id => do
    let kind ← DynamicObjectKind.read kind_id
    Rd.pure { section_id := hdr.1, section_name := hdr.2,
              name := latin1_to_utf8 name, tm := tm, kind := kind }

/-- `DynamicObjects`. -/
structure DynamicObjects where
  id : Nat
  name : String
  dynamic_objects : List DynamicObject
deriving DecidableEq, Repr

/-- `DynamicObjects::read`. -/
def DynamicObjects.read : Rd DynamicObjects := do
  let hdr ← ctx "dynamic objects section header" section_header
  let n ← ctx "dynamic object count" read_u32
  let dynamic_objects ← readLoop
    (fun i => ctx ("dynamic object " ++ toString i) DynamicObject.read) 0 n
  Rd.pure { id := hdr.1, name := hdr.2, dynamic_objects := dynamic_objects }

/-- `TransformationWithAABB`. -/
structure TransformationWithAABB where
  tm : TransformationMatrix
  aabb : List Nat
deriving DecidableEq, Repr

/-- `TransformationWithAABB::read`. -/
def TransformationWithAABB.read : Rd TransformationWithAABB := do
  let tm ← ctx "TM + AABB" TransformationMatrix.read
  let aabb ← readLoop
    (fun i => ctx ("level TM + AABB side " ++ toString i) read_f32) 0 6
  Rd.pure { tm := tm, aabb := aabb }

/-- `ShermanLevel`. -/
structure ShermanLevel where
  name : String
  tm_with_aabb : List TransformationWithAABB
  unknown1 : List Nat
  unknown2 : Nat
deriving DecidableEq, Repr

/-- `ShermanLevel::read`. -/
def ShermanLevel.read : Rd ShermanLevel := do
  let name ← ctx "level name" read_cstring
  let n ← ctx "level TM + AABB count" read_u32
  let tm_with_aabb ← readLoop
    (fun i => ctx ("level TM + AABBB " ++ toString i)
      TransformationWithAABB.read) 0 n
  let m ← ctx "unknown count" read_u32
  let unknown1 ← readLoop
    (fun i => ctx ("level unknown1 " ++ toString i) read_f32) 0 m
  let unknown2 ← ctx "level unknown2" read_u8
  Rd.pure { name := latin1_to_utf8 name, tm_with_aabb := tm_with_aabb,
            unknown1 := unknown1, unknown2 := unknown2 }

/-- `LevelHeight`. -/
structure LevelHeight where
  height : Nat
  unknown : Nat
deriving DecidableEq, Repr

/-- `LevelHeight::read`. -/
def LevelHeight.read : Rd LevelHeight := do
  let height ← ctx "level height" read_f32
  let unknown ← ctx "level height unknown" read_f32
  Rd.pure { height := height, unknown := unknown }

/-- `Room`: three raw flag bytes, then the three conditionally present
fields, the level list and the float-prefixed height list. -/
structure Room where
  section_id : Nat
  section_name : String
  unknown1 : Nat
  unknown2 : Nat
  unknown3 : Nat
  unknown4 : Option Nat
  unknown5 : Option (List Nat)
  unknown6 : Option (List Nat)
  sherman_levels : List ShermanLevel
  unknown7 : Nat
  level_heights : List LevelHeight
deriving DecidableEq, Repr

/-- `Room::read`: `unknown4` (1 byte) iff `unknown1 == 0`; `unknown5`
(6 floats) iff `unknown3 == 1`; `unknown6` (6 floats) iff
`unknown4.is_some_and(|x| x == 1)` — evaluated in this order. -/
def Room.read : Rd Room := do
  let hdr ← ctx "room section header short" section_header_short
  let unknown1 ← ctx "room unknown1" read_u8
  let unknown2 ← ctx "room unknown2" read_u8
  let unknown3 ← ctx "room unknown3" read_u8
  let unknown4 ←
    if unknown1 == 0 then do
      let v ← ctx "room unknown4" read_u8
      Rd.pure (some v)
    else Rd.pure none
  let unknown5 ←
    if unknown3 == 1 then do
      let arr ← readLoop
        (fun i => ctx ("room unknown5 " ++ toString i) read_f32) 0 6
      Rd.pure (some arr)
    else Rd.pure none
  let unknown6 ←
    if isSomeAndOne unknown4 then do
      let arr ← readLoop
        (fun i => ctx ("room unknown6 " ++ toString i) read_f32) 0 6
      Rd.pure (some arr)
    else Rd.pure none
  let n ← ctx "room level count" read_u32
  let levels ← readLoop
    (fun i => ctx ("room sherman level " ++ toString i) ShermanLevel.read) 0 n
  let m ← ctx "room level heights count" read_u32
  let unknown7 ← ctx "room unknown7" read_f32
  let heights ← readLoop
    (fun i => ctx ("room sherman level heights " ++ toString i)
      LevelHeight.read) 0 m
  Rd.pure { section_id := hdr.1, section_name := hdr.2,
            unknown1 := unknown1, unknown2 := unknown2,
            unknown3 := unknown3, unknown4 := unknown4,
            unknown5 := unknown5, unknown6 := unknown6,
            sherman_levels := levels, unknown7 := unknown7,
            level_heights := heights }

/-- `Rooms`. -/
structure Rooms where
  section_id : Nat
  section_name : String
  rooms : List Room
deriving DecidableEq, Repr

/-- `Rooms::read`. -/
def Rooms.read : Rd Rooms := do
  let hdr ← ctx "room list" section_header
  let n ← ctx "room count" read_u32
  let rooms ← readLoop
    (fun i => ctx ("room " ++ toString i) Room.read) 0 n
  Rd.pure { section_id := hdr.1, section_name := hdr.2, rooms := rooms }

/-- `TransitionCoords`. -/
structure TransitionCoords where
  p1 : Vec3f
  p2 : Vec3f
deriving DecidableEq, Repr

/-- `TransitionCoords::read`. -/
def TransitionCoords.read : Rd TransitionCoords := do
  let p1 ← ctx "transition coords P1" Vec3f.read
  let p2 ← ctx "transition coords P2" Vec3f.read
  Rd.pure ⟨p1, p2⟩

/-- `Transition`. -/
structure Transition where
  name : String
  coords : TransitionCoords
deriving DecidableEq, Repr

/-- `Transition::read`. -/
def Transition.read : Rd Transition := do
  let name ← ctx "transition" read_cstring
  let coords ← TransitionCoords.read
  Rd.pure { name := latin1_to_utf8 name, coords := coords }

/-- `Transitions`. -/
structure Transitions where
  section_id : Nat
  section_name : String
  transitions : List Transition
deriving DecidableEq, Repr

/-- `Transitions::read`. -/
def Transitions.read : Rd Transitions := do
  let hdr ← ctx "transitions" section_header
  let n ← ctx "transitions count" read_u32
  let transitions ← readLoop
    (fun i => ctx ("transition " ++ toString i) Transition.read) 0 n
  Rd.pure { section_id := hdr.1, section_name := hdr.2,
            transitions := transitions }

/-- `PlanningLevel`. -/
structure PlanningLevel where
  level_number : Nat
  floor_height : Nat
  room_names : List String
deriving DecidableEq, Repr

/-- `PlanningLevel::read`. -/
def PlanningLevel.read : Rd PlanningLevel := do
  let level_number ← ctx "planning level number" read_f32
  let floor_height ← ctx "planning level floor height" read_f32
  let n ← ctx "planning level room count" read_u32
  let room_names ← readLoop
    (fun i => ctx ("planning level room name " ++ toString i) read_cstring) 0 n
  Rd.pure { level_number := level_number, floor_height := floor_height,
            room_names := room_names.map latin1_to_utf8 }

/-- `PlanningLevels`. -/
structure PlanningLevels where
  section_id : Nat
  section_name : String
  levels : List PlanningLevel
deriving DecidableEq, Repr

/-- `PlanningLevels::read`. -/
def PlanningLevels.read : Rd PlanningLevels := do
  let hdr ← ctx "planning levels" section_header
  let n ← ctx "planning levels count" read_u32
  let levels ← readLoop
    (fun i => ctx ("planning level " ++ toString i) PlanningLevel.read) 0 n
  Rd.pure { section_id := hdr.1, section_name := hdr.2, levels := levels }

/-- `Map`: the decoded tree, in declared order. -/
structure Map where
  header : MapHeader
  materials : Materials
  geometries : Geometries
  portals : Portals
  lights : Lights
  dynamic_objects : DynamicObjects
  rooms : Rooms
  transitions : Transitions
  planning_levels : PlanningLevels
deriving DecidableEq, Repr

/-- `Map::read`: header (magic + timestamp), the eight top-level
sections strictly in order, then the length-prefixed "EndMap" terminator
(`ensure!(read_cstring == END)`). -/
def Map.read : Rd Map := do
  let header ← ctx "MAP Header" MapHeader.read
  let materials ← ctx "Materials List" Materials.read
  let geometries ← ctx "Geometry List" Geometries.read
  let portals ← ctx "Portal List" Portals.read
  let lights ← ctx "Light List" Lights.read
  let dynamic_objects ← ctx "Dynamic Object List" DynamicObjects.read
  let rooms ← ctx "Rooms List" Rooms.read
  let transitions ← ctx "Transition List" Transitions.read
  let planning_levels ← ctx "Planning Levels List" PlanningLevels.read
  let endBytes ← ctx "end" read_cstring
  if endBytes == END then
    Rd.pure { header := header, materials := materials,
              geometries := geometries, portals := portals, lights := lights,
              dynamic_objects := dynamic_objects, rooms := rooms,
              transitions := transitions, planning_levels := planning_levels }
  else
    Rd.throw .missingEnd

/-! ## Round-trip infrastructure for the MAP grammars -/

theorem readLoop_enc {α β : Type} (r : Nat → Rd β) (e : α → List Nat)
    (d : α → β)
    (henc : ∀ (i : Nat) (x : α) (rest : List Nat),
      r i (e x ++ rest) = .ok (d x, rest)) :
    ∀ (xs : List α) (j : Nat) (rest : List Nat),
      readLoop r j xs.length (encAll e xs ++ rest) = .ok (xs.map d, rest)
  | [], _, _ => rfl
  | x :: xs, j, rest => by
    have ih := readLoop_enc r e d henc xs (j + 1) rest
    simp only [List.length_cons, readLoop, bind_apply, encAll,
      List.append_assoc, henc, ih, Rd.pure, List.map_cons]

theorem section_header_short_enc (id : Nat) (nm : List Nat)
    (hid : id < 2 ^ 32) (hnm : StrOk nm) (hv : nm ≠ VERSION_BYTES)
    (rest : List Nat) :
    section_header_short (encU32 id ++ (encCString nm ++ rest))
      = .ok ((id, latin1_to_utf8 nm), rest) := by
  have hbeq : (nm == VERSION_BYTES) = false := by
    simp only [beq_eq_false_iff_ne, ne_eq]
    exact hv
  simp only [section_header_short, bind_apply, ctx_apply,
    read_u32_enc id hid, read_cstring_enc nm hnm, hbeq, Bool.false_eq_true,
    if_false, Rd.pure]

theorem section_header_enc (sz id : Nat) (nm : List Nat)
    (hsz : sz < 2 ^ 32) (hid : id < 2 ^ 32) (hnm : StrOk nm)
    (hv : nm ≠ VERSION_BYTES) (rest : List Nat) :
    section_header (encU32 sz ++ (encU32 id ++ (encCString nm ++ rest)))
      = .ok ((id, latin1_to_utf8 nm), rest) := by
  simp only [section_header, bind_apply, ctx_apply, read_u32_enc sz hsz,
    section_header_short_enc id nm hid hnm hv]

/-- Encoder of one `Vec3f` (three raw f32 patterns). -/
def encVec3f (v : Vec3f) : List Nat := encU32 v.x ++ (encU32 v.y ++ encU32 v.z)

/-- All components of a `Vec3f` fit in 32 bits. -/
def Vec3f.Valid (v : Vec3f) : Prop :=
  v.x < 2 ^ 32 ∧ v.y < 2 ^ 32 ∧ v.z < 2 ^ 32

theorem vec3f_read_enc (v : Vec3f) (hv : v.Valid) (rest : List Nat) :
    Vec3f.read (encVec3f v ++ rest) = .ok (v, rest) := by
  obtain ⟨h1, h2, h3⟩ := hv
  simp only [Vec3f.read, read_f32_xyz, read_f32_xy, read_f32, encVec3f,
    bind_apply, ctx_apply, List.append_assoc, read_u32_enc v.x h1,
    read_u32_enc v.y h2, read_u32_enc v.z h3, Rd.pure]

/-- Encoder of a `TransformationMatrix` (12 raw f32 patterns). -/
def encTm (t : TransformationMatrix) : List Nat :=
  encVec3f t.x_axis ++ (encVec3f t.y_axis
    ++ (encVec3f t.z_axis ++ encVec3f t.position))

/-- All components of a `TransformationMatrix` fit in 32 bits. -/
def TransformationMatrix.Valid (t : TransformationMatrix) : Prop :=
  t.x_axis.Valid ∧ t.y_axis.Valid ∧ t.z_axis.Valid ∧ t.position.Valid

theorem tm_read_enc (t : TransformationMatrix) (ht : t.Valid)
    (rest : List Nat) :
    TransformationMatrix.read (encTm t ++ rest) = .ok (t, rest) := by
  obtain ⟨h1, h2, h3, h4⟩ := ht
  simp only [TransformationMatrix.read, encTm, bind_apply, ctx_apply,
    List.append_assoc, vec3f_read_enc t.x_axis h1, vec3f_read_enc t.y_axis h2,
    vec3f_read_enc t.z_axis h3, vec3f_read_enc t.position h4, Rd.pure]

theorem readLoop_f32_enc (lbl : Nat → String) (xs : List Nat)
    (hxs : ∀ x ∈ xs, x < 2 ^ 32) :
    ∀ (j : Nat) (rest : List Nat),
      readLoop (fun i => ctx (lbl i) read_f32) j xs.length
        (encAll encU32 xs ++ rest) = .ok (xs, rest) := by
  induction xs with
  | nil => intro j rest; rfl
  | cons x xs ih =>
    intro j rest
    have hx : x < 2 ^ 32 := hxs x (by simp)
    have ih2 := ih (fun y hy => hxs y (by simp [hy])) (j + 1) rest
    simp only [List.length_cons, readLoop, bind_apply, ctx_apply, encAll,
      List.append_assoc, read_f32_enc x hx, ih2, Rd.pure]

theorem readLoop_cstring_enc (lbl : Nat → String) (xs : List (List Nat))
    (hxs : ∀ x ∈ xs, StrOk x) :
    ∀ (j : Nat) (rest : List Nat),
      readLoop (fun i => ctx (lbl i) read_cstring) j xs.length
        (encAll encCString xs ++ rest) = .ok (xs, rest) := by
  induction xs with
  | nil => intro j rest; rfl
  | cons x xs ih =>
    intro j rest
    have hx : StrOk x := hxs x (by simp)
    have ih2 := ih (fun y hy => hxs y (by simp [hy])) (j + 1) rest
    simp only [List.length_cons, readLoop, bind_apply, ctx_apply, encAll,
      List.append_assoc, read_cstring_enc x hx, ih2, Rd.pure]

theorem readLoop_zero {α : Type} (r : Nat → Rd α) (j : Nat) :
    readLoop r j 0 = Rd.pure [] := rfl

/-! ## Claim C6: the Room conditional-field chain -/

/-- C6: after the three raw flag bytes, the three conditional fields are
read in declared order — `unknown4` (1 byte) present iff `unknown1 == 0`,
`unknown5` (6 floats) present iff `unknown3 == 1`, `unknown6` (6 floats)
present iff `unknown4` was present with value 1, hence absent whenever
`unknown1 != 0` — for every flag combination and every layout matching
those conditions (shown here with empty level and height lists). -/
theorem room_conditional_fields (id : Nat) (nm : List Nat)
    (f1 f2 f3 a1 : Nat) (bf cf : List Nat) (u7 : Nat)
    (hid : id < 2 ^ 32) (hnm : StrOk nm) (hv : nm ≠ VERSION_BYTES)
    (hbf : bf.length = 6) (hbf32 : ∀ x ∈ bf, x < 2 ^ 32)
    (hcf : cf.length = 6) (hcf32 : ∀ x ∈ cf, x < 2 ^ 32)
    (hu7 : u7 < 2 ^ 32) (rest : List Nat) :
    Room.read (encU32 id ++ (encCString nm
        ++ ([f1, f2, f3]
        ++ ((if f1 == 0 then [a1] else [])
        ++ ((if f3 == 1 then encAll encU32 bf else [])
        ++ ((if f1 == 0 && a1 == 1 then encAll encU32 cf else [])
        ++ (encU32 0 ++ (encU32 0 ++ (encU32 u7 ++ rest)))))))))
      = .ok ({ section_id := id, section_name := latin1_to_utf8 nm,
               unknown1 := f1, unknown2 := f2, unknown3 := f3,
               unknown4 := if f1 == 0 then some a1 else none,
               unknown5 := if f3 == 1 then some bf else none,
               unknown6 := if f1 == 0 && a1 == 1 then some cf else none,
               sherman_levels := [], unknown7 := u7,
               level_heights := [] }, rest) := by
  have h5 := readLoop_f32_enc (fun i => "room unknown5 " ++ toString i)
    bf hbf32
  rw [hbf] at h5
  have h6 := readLoop_f32_enc (fun i => "room unknown6 " ++ toString i)
    cf hcf32
  rw [hcf] at h6
  simp only [Room.read, bind_apply, ctx_apply, List.append_assoc,
    List.cons_append, section_header_short_enc id nm hid hnm hv, read_u8,
    readLoop_zero]
  cases hb1 : (f1 == 0) <;> cases hb3 : (f3 == 1) <;> cases hba : (a1 == 1) <;>
    simp only [hb1, hb3, hba, isSomeAndOne, Bool.and_self, Bool.and_true,
      Bool.and_false, Bool.true_and, Bool.false_and, Bool.false_eq_true,
      if_false, if_true, eq_self_iff_true, bind_apply, ctx_apply, read_u8,
      List.append_assoc, List.nil_append, List.cons_append,
      List.singleton_append, h5, h6,
      read_u32_enc 0 (by norm_num), read_f32_enc u7 hu7, readLoop_zero,
      Rd.pure]

/-- Witness instantiating C6 with all three conditional fields present. -/
theorem room_conditional_fields_witness :
    Room.read (encU32 1 ++ (encCString [65]
        ++ ([0, 5, 1] ++ ([1] ++ (encAll encU32 [1, 2, 3, 4, 5, 6]
        ++ (encAll encU32 [7, 8, 9, 10, 11, 12]
        ++ (encU32 0 ++ (encU32 0 ++ (encU32 0 ++ [])))))))))
      = .ok ({ section_id := 1, section_name := latin1_to_utf8 [65],
               unknown1 := 0, unknown2 := 5, unknown3 := 1,
               unknown4 := some 1, unknown5 := some [1, 2, 3, 4, 5, 6],
               unknown6 := some [7, 8, 9, 10, 11, 12],
               sherman_levels := [], unknown7 := 0,
               level_heights := [] }, []) :=
  room_conditional_fields 1 [65] 0 5 1 1 [1, 2, 3, 4, 5, 6]
    [7, 8, 9, 10, 11, 12] 0 (by norm_num) (by norm_num [StrOk]) (by decide)
    (by decide) (by decide) (by decide) (by decide) (by norm_num) []

/-! ## Claim C5: the id-14 shadow-count parameter block -/

theorem readLoop_u32_enc (lbl : Nat → String) (xs : List Nat)
    (hxs : ∀ x ∈ xs, x < 2 ^ 32) :
    ∀ (j : Nat) (rest : List Nat),
      readLoop (fun i => ctx (lbl i) read_u32) j xs.length
        (encAll encU32 xs ++ rest) = .ok (xs, rest) := by
  induction xs with
  | nil => intro j rest; rfl
  | cons x xs ih =>
    intro j rest
    have hx : x < 2 ^ 32 := hxs x (by simp)
    have ih2 := ih (fun y hy => hxs y (by simp [hy])) (j + 1) rest
    simp only [List.length_cons, readLoop, bind_apply, ctx_apply, encAll,
      List.append_assoc, read_u32_enc x hx, ih2, Rd.pure]

theorem readLoop_enc_mem {α β : Type} (r : Nat → Rd β) (e : α → List Nat)
    (d : α → β) :
    ∀ (xs : List α),
      (∀ x ∈ xs, ∀ (i : Nat) (rest : List Nat),
        r i (e x ++ rest) = .ok (d x, rest)) →
      ∀ (j : Nat) (rest : List Nat),
        readLoop r j xs.length (encAll e xs ++ rest) = .ok (xs.map d, rest)
  | [], _, _, _ => rfl
  | x :: xs, henc, j, rest => by
    have hx := henc x (by simp) j (encAll e xs ++ rest)
    have ih := readLoop_enc_mem r e d xs
      (fun y hy => henc y (by simp [hy])) (j + 1) rest
    simp only [List.length_cons, readLoop, bind_apply, encAll,
      List.append_assoc, hx, ih, Rd.pure, List.map_cons]

theorem readLoop_length {α : Type} (r : Nat → Rd α) :
    ∀ (n j : Nat) (bs : List Nat) (out : List α) (rest : List Nat),
      readLoop r j n bs = .ok (out, rest) → out.length = n
  | 0, j, bs, out, rest, h => by
    simp only [readLoop, Rd.pure, Except.ok.injEq, Prod.mk.injEq] at h
    rw [← h.1]
    rfl
  | Nat.succ k, j, bs, out, rest, h => by
    simp only [readLoop, bind_apply] at h
    match hx : r j bs with
    | .error e => rw [hx] at h; cases h
    | .ok (x, r1) =>
      rw [hx] at h
      simp only [Rd.pure] at h
      match hr : readLoop r (j + 1) k r1 with
      | .error e => rw [hr] at h; cases h
      | .ok (xs, r2) =>
        rw [hr] at h
        simp only [Rd.pure, Except.ok.injEq, Prod.mk.injEq] at h
        have hlen := readLoop_length r k (j + 1) r1 xs r2 hr
        rw [← h.1]
        simp [hlen]

/-- Raw field triple of one `KindDynamicParamStruct`: name bytes, 9 f32
patterns, 2 u32 values. -/
def encKDPS3 (s : List Nat × List Nat × List Nat) : List Nat :=
  encCString s.1 ++ (encAll encU32 s.2.1 ++ encAll encU32 s.2.2)

/-- The struct `KindDynamicParamStruct::read` decodes from a raw
triple. -/
def decKDPS (s : List Nat × List Nat × List Nat) : KindDynamicParamStruct :=
  { name := latin1_to_utf8 s.1, unknown1 := s.2.1, unknown2 := s.2.2 }

theorem kdps_read_enc (nm u1 u2 : List Nat) (hnm : StrOk nm)
    (h1 : u1.length = 9) (h132 : ∀ x ∈ u1, x < 2 ^ 32)
    (h2 : u2.length = 2) (h232 : ∀ x ∈ u2, x < 2 ^ 32) (rest : List Nat) :
    KindDynamicParamStruct.read (encKDPS3 (nm, u1, u2) ++ rest)
      = .ok (decKDPS (nm, u1, u2), rest) := by
  have hu1 := readLoop_f32_enc
    (fun i => "dynamic object kind struct unknown1 " ++ toString i) u1 h132
  rw [h1] at hu1
  have hu2 := readLoop_u32_enc
    (fun i => "dynamic object kind struct unknown2 " ++ toString i) u2 h232
  rw [h2] at hu2
  simp only [KindDynamicParamStruct.read, encKDPS3, decKDPS, bind_apply,
    ctx_apply, List.append_assoc, read_cstring_enc nm hnm, hu1, hu2, Rd.pure]

/-- C5: the id-14 parameter block reads a leading count; when it is
positive exactly that many struct blocks (name + 9 floats + 2 integers)
follow and nothing else; when it is exactly zero a second independent
count follows, then that many plain names, then 4 trailing floats; and a
`Struct` result never carries an empty list. -/
theorem kind_dynamic_params_shadow_count
    (ss : List (List Nat × List Nat × List Nat))
    (hss : ∀ s ∈ ss, StrOk s.1 ∧ (s.2.1.length = 9 ∧ ∀ x ∈ s.2.1, x < 2 ^ 32)
        ∧ (s.2.2.length = 2 ∧ ∀ x ∈ s.2.2, x < 2 ^ 32))
    (hpos : 0 < ss.length) (hlen : ss.length < 2 ^ 32)
    (nms : List (List Nat)) (hnms : ∀ x ∈ nms, StrOk x)
    (hnlen : nms.length < 2 ^ 32)
    (fl : List Nat) (hfl : fl.length = 4) (hfl32 : ∀ x ∈ fl, x < 2 ^ 32)
    (rest : List Nat) :
    (KindDynamicParams.read (encU32 ss.length ++ (encAll encKDPS3 ss ++ rest))
      = .ok (.Struct (ss.map decKDPS), rest))
    ∧ (KindDynamicParams.read (encU32 0 ++ (encU32 nms.length
        ++ (encAll encCString nms ++ (encAll encU32 fl ++ rest))))
      = .ok (.Flat (nms.map latin1_to_utf8) fl, rest))
    ∧ (∀ (bs tail : List Nat) (l : List KindDynamicParamStruct),
        KindDynamicParams.read bs = .ok (.Struct l, tail) → l ≠ []) := by
  refine ⟨?_, ?_, ?_⟩
  · have hloop := readLoop_enc_mem
      (fun i => ctx ("dynamic object kind struct " ++ toString i)
        KindDynamicParamStruct.read) encKDPS3 decKDPS ss
      (fun s hs i rrest => by
        obtain ⟨ha, ⟨hb, hc⟩, ⟨hd, he⟩⟩ := hss s hs
        simp only [ctx_apply,
          kdps_read_enc s.1 s.2.1 s.2.2 ha hb hc hd he rrest]) 0 rest
    simp only [KindDynamicParams.read, bind_apply, ctx_apply,
      read_u32_enc ss.length hlen]
    rw [if_pos hpos]
    simp only [bind_apply, hloop, Rd.pure]
  · have hnames := readLoop_cstring_enc
      (fun i => "dynamic object kind flat name " ++ toString i) nms hnms 0
      (encAll encU32 fl ++ rest)
    have hfloats := readLoop_f32_enc
      (fun i => "dynamic object kind flat unknown " ++ toString i) fl hfl32
    rw [hfl] at hfloats
    simp only [KindDynamicParams.read, bind_apply, ctx_apply,
      read_u32_enc 0 (by norm_num), read_u32_enc nms.length hnlen,
      List.append_assoc, hnames, hfloats, Rd.pure, gt_iff_lt,
      lt_self_iff_false, if_false]
  · intro bs tail l h
    simp only [KindDynamicParams.read, bind_apply, ctx_apply] at h
    match hu : read_u32 bs with
    | .error e => rw [hu] at h; cases h
    | .ok (count, r1) =>
      rw [hu] at h
      simp only [Rd.pure] at h
      by_cases hc : count > 0
      · rw [if_pos hc] at h
        simp only [bind_apply] at h
        match hr : readLoop (fun i =>
            ctx ("dynamic object kind struct " ++ toString i)
              KindDynamicParamStruct.read) 0 count r1 with
        | .error e => rw [hr] at h; cases h
        | .ok (structs, r2) =>
          rw [hr] at h
          simp only [Rd.pure, Except.ok.injEq, Prod.mk.injEq,
            KindDynamicParams.Struct.injEq] at h
          have hlen2 := readLoop_length _ count 0 r1 structs r2 hr
          intro hnil
          rw [h.1, hnil] at hlen2
          simp at hlen2
          omega
      · rw [if_neg hc] at h
        simp only [bind_apply, ctx_apply] at h
        match hu2 : read_u32 r1 with
        | .error e => rw [hu2] at h; cases h
        | .ok (count2, r2) =>
          rw [hu2] at h
          simp only [Rd.pure] at h
          match hn : readLoop (fun i =>
              ctx ("dynamic object kind flat name " ++ toString i)
                read_cstring) 0 count2 r2 with
          | .error e => rw [hn] at h; cases h
          | .ok (names, r3) =>
            rw [hn] at h
            simp only [bind_apply] at h
            match hf : readLoop (fun i =>
                ctx ("dynamic object kind flat unknown " ++ toString i)
                  read_f32) 0 4 r3 with
            | .error e => rw [hf] at h; cases h
            | .ok (fls, r4) =>
              rw [hf] at h
              cases h

/-- Witness instantiating C5's positive-count branch at one struct
block. -/
theorem kind_dynamic_params_shadow_count_witness :
    KindDynamicParams.read (encU32 1
        ++ (encAll encKDPS3 [([65], [1, 2, 3, 4, 5, 6, 7, 8, 9], [10, 11])]
        ++ []))
      = .ok (.Struct [decKDPS ([65], [1, 2, 3, 4, 5, 6, 7, 8, 9], [10, 11])],
             []) :=
  (kind_dynamic_params_shadow_count
    [([65], [1, 2, 3, 4, 5, 6, 7, 8, 9], [10, 11])]
    (by intro s hs; simp at hs; subst hs; refine ⟨by norm_num [StrOk], ⟨rfl, by decide⟩, rfl, by decide⟩)
    (by decide) (by decide) [] (by intro x hx; cases hx) (by decide)
    [0, 0, 0, 0] rfl (by decide) []).1

/-! ## Claim C4: the common prefix block of ids 14, 15, 16 -/

/-- Raw (byte-level) field values of one
`DynamicObjectKindCommon` block. -/
structure CommonRaw where
  tm : TransformationMatrix
  name : List Nat
  unknown1 : Nat
  s0 : List Nat
  s1 : List Nat
  s2 : List Nat
  s3 : List Nat
  c2d : List Nat
  c3d : List Nat
  dact : List Nat
  dcat : List Nat
  pen : List Nat
  nm2 : List Nat
  dcat2 : List Nat

/-- All fields of a raw common block are encodable. -/
def CommonRaw.Valid (c : CommonRaw) : Prop :=
  c.tm.Valid ∧ StrOk c.name ∧ c.unknown1 < 2 ^ 32
    ∧ StrOk c.s0 ∧ StrOk c.s1 ∧ StrOk c.s2 ∧ StrOk c.s3
    ∧ StrOk c.c2d ∧ StrOk c.c3d ∧ StrOk c.dact ∧ StrOk c.dcat
    ∧ StrOk c.pen ∧ StrOk c.nm2 ∧ StrOk c.dcat2

/-- Byte layout of the common block: transform, name, flag integer, the
four sound names, then the seven remaining strings in source order. -/
def encCommon (c : CommonRaw) : List Nat :=
  encTm c.tm ++ (encCString c.name ++ (encU32 c.unknown1
    ++ (encAll encCString [c.s0, c.s1, c.s2, c.s3]
    ++ (encCString c.c2d ++ (encCString c.c3d ++ (encCString c.dact
    ++ (encCString c.dcat ++ (encCString c.pen ++ (encCString c.nm2
    ++ encCString c.dcat2)))))))))

/-- The structure `DynamicObjectKindCommon::read` produces from those
raw fields. -/
def decCommon (c : CommonRaw) : DynamicObjectKindCommon :=
  { tm := c.tm, name := latin1_to_utf8 c.name, unknown1 := c.unknown1,
    sounds := [c.s0, c.s1, c.s2, c.s3].map latin1_to_utf8,
    collision_type_2d := latin1_to_utf8 c.c2d,
    collision_type_3d := latin1_to_utf8 c.c3d,
    destruction_action := latin1_to_utf8 c.dact,
    destruction_category := latin1_to_utf8 c.dcat,
    penetration_type := latin1_to_utf8 c.pen,
    name2 := latin1_to_utf8 c.nm2,
    destruction_category2 := latin1_to_utf8 c.dcat2 }

theorem common_read_enc (c : CommonRaw) (hc : c.Valid) (rest : List Nat) :
    DynamicObjectKindCommon.read (encCommon c ++ rest)
      = .ok (decCommon c, rest) := by
  obtain ⟨htm, hname, hu1, h0, h1, h2, h3, hc2d, hc3d, hdact, hdcat, hpen,
    hnm2, hdcat2⟩ := hc
  have hsounds := readLoop_cstring_enc (fun i => "sound " ++ toString i)
    [c.s0, c.s1, c.s2, c.s3]
    (by
      intro x hx
      simp only [List.mem_cons, List.not_mem_nil, or_false] at hx
      rcases hx with rfl | rfl | rfl | rfl
      · exact h0
      · exact h1
      · exact h2
      · exact h3)
  have hlen4 : ([c.s0, c.s1, c.s2, c.s3] : List (List Nat)).length = 4 := rfl
  rw [hlen4] at hsounds
  simp only [DynamicObjectKindCommon.read, encCommon, decCommon, bind_apply,
    ctx_apply, List.append_assoc, tm_read_enc c.tm htm,
    read_cstring_enc c.name hname, read_u32_enc c.unknown1 hu1, hsounds,
    read_cstring_enc c.c2d hc2d, read_cstring_enc c.c3d hc3d,
    read_cstring_enc c.dact hdact, read_cstring_enc c.dcat hdcat,
    read_cstring_enc c.pen hpen, read_cstring_enc c.nm2 hnm2,
    read_cstring_enc c.dcat2 hdcat2, Rd.pure]

/-- The id-14 payload after its common block. -/
def dynamicRemainder (common : DynamicObjectKindCommon) :
    Rd DynamicObjectKind := do
  let params ← KindDynamicParams.read
  Rd.pure (.Dynamic common params)

/-- The id-15 payload after its common block. -/
def animationRemainder (common : DynamicObjectKindCommon) :
    Rd DynamicObjectKind := do
  let unknown2 ← ctx "unknown2" read_u32
  let n ← ctx "name count" read_u32
  let names ← readLoop
    (fun i => ctx ("animation name " ++ toString i) read_cstring) 0 n
  let unknown3 ← readLoop
    (fun i => ctx ("animation unknown3 " ++ toString i) read_f32) 0 3
  let unknown4 ← ctx "animation unknown4" read_u32
  let name3 ← ctx "animation name3" read_cstring
  let name4 ← ctx "animation name4" read_cstring
  let animation_type ← ctx "animation type" read_cstring
  let direction ← ctx "animation direction" Vec3f.read
  let distance ← ctx "animation distance" read_f32
  let velocity ← ctx "animation velocity" read_f32
  Rd.pure (.Animation common unknown2 (names.map latin1_to_utf8) unknown3
    unknown4 (latin1_to_utf8 name3) (latin1_to_utf8 name4)
    (latin1_to_utf8 animation_type) direction distance velocity)

/-- The id-16 payload after its common block. -/
def touchplateRemainder (common : DynamicObjectKindCommon) :
    Rd DynamicObjectKind := do
  let unknown1 ← ctx "ADT unknown1" read_u32
  let n ← ctx "ADT attachment count" read_u32
  let attachments ← readLoop
    (fun i => ctx ("ADT attachment " ++ toString i) read_cstring) 0 n
  let unknown2 ← readLoop
    (fun i => ctx ("ADT unknown2 " ++ toString i) read_f32) 0 3
  let m ← ctx "name count" read_u32
  let names ← readLoop
    (fun i => ctx ("ADT name " ++ toString i) read_cstring) 0 m
  let name2 ← ctx "ADT name2" read_cstring
  let name3 ← ctx "ADT name3" read_cstring
  let animation_type ← ctx "animation type" read_cstring
  let direction ← ctx "animation direction" Vec3f.read
  let distance ← ctx "animation distance" read_f32
  let velocity ← ctx "animation velocity" read_f32
  Rd.pure (.RepeatableTouchplate common unknown1
    (attachments.map latin1_to_utf8) unknown2 (names.map latin1_to_utf8)
    (latin1_to_utf8 name2) (latin1_to_utf8 name3)
    (latin1_to_utf8 animation_type) direction distance velocity)

/-- C4 (amended): for each of the discriminators 14 (Dynamic),
15 (Animation) and 16 (RepeatableTouchplate), the payload begins with the
common block — a transform, a name, one flag integer, four sound-name
strings, and then SEVEN further strings (2D collision type, 3D collision
type, destruction action, destruction category, penetration type, a
secondary name, and a second destruction category) — after which the
variant-specific remainder starts exactly at the following byte. -/
theorem dynamic_common_block (c : CommonRaw) (hc : c.Valid)
    (rest : List Nat) :
    (DynamicObjectKindCommon.read (encCommon c ++ rest)
      = .ok (decCommon c, rest))
    ∧ (DynamicObjectKind.dynamic (encCommon c ++ rest)
      = dynamicRemainder (decCommon c) rest)
    ∧ (DynamicObjectKind.animation (encCommon c ++ rest)
      = animationRemainder (decCommon c) rest)
    ∧ (DynamicObjectKind.repeatable_touchplate (encCommon c ++ rest)
      = touchplateRemainder (decCommon c) rest) := by
  have h := common_read_enc c hc rest
  refine ⟨h, ?_, ?_, ?_⟩
  · simp only [DynamicObjectKind.dynamic, dynamicRemainder, bind_apply, h]
  · simp only [DynamicObjectKind.animation, animationRemainder, bind_apply, h]
  · simp only [DynamicObjectKind.repeatable_touchplate, touchplateRemainder,
      bind_apply, h]

/-- Witness instantiating C4 at the all-empty common block. -/
theorem dynamic_common_block_witness :
    DynamicObjectKindCommon.read
        (encCommon ⟨⟨⟨0, 0, 0⟩, ⟨0, 0, 0⟩, ⟨0, 0, 0⟩, ⟨0, 0, 0⟩⟩, [], 0,
          [], [], [], [], [], [], [], [], [], [], []⟩ ++ [])
      = .ok (decCommon ⟨⟨⟨0, 0, 0⟩, ⟨0, 0, 0⟩, ⟨0, 0, 0⟩, ⟨0, 0, 0⟩⟩, [], 0,
          [], [], [], [], [], [], [], [], [], [], []⟩, []) :=
  (dynamic_common_block
    ⟨⟨⟨0, 0, 0⟩, ⟨0, 0, 0⟩, ⟨0, 0, 0⟩, ⟨0, 0, 0⟩⟩, [], 0,
      [], [], [], [], [], [], [], [], [], [], []⟩
    (by norm_num [CommonRaw.Valid, TransformationMatrix.Valid, Vec3f.Valid,
      StrOk]) []).1

/-- C4 (refuting the claim as stated): a payload laid out exactly as the
claim describes the common block — transform, name, flag, four sounds,
then just SIX classification strings and nothing more — is rejected by
`DynamicObjectKindCommon::read`, which demands a seventh trailing
string. -/
theorem dynamic_common_six_strings_rejected :
    exceptIsOk (DynamicObjectKindCommon.read
      (encTm ⟨⟨0, 0, 0⟩, ⟨0, 0, 0⟩, ⟨0, 0, 0⟩, ⟨0, 0, 0⟩⟩
        ++ (encCString [] ++ (encU32 0
        ++ (encAll encCString [[], [], [], []]
        ++ (encCString [] ++ (encCString [] ++ (encCString []
        ++ (encCString [] ++ (encCString [] ++ encCString []))))))))))
      = false := by
  decide

/-! ## Claim C7: the discriminator table is closed -/

theorem try_from_unmapped (v : Nat)
    (hv : v ∉ ([14, 15, 16, 20, 25, 31, 36] : List Nat)) :
    Id.try_from v = .error (.unhandledId v) := by
  simp only [List.mem_cons, List.not_mem_nil, or_false, not_or] at hv
  obtain ⟨h1, h2, h3, h4, h5, h6, h7⟩ := hv
  simp only [Id.try_from, Id.toU32, h1, h2, h3, h4, h5, h6, h7, if_false]

/-- C7: `Id::try_from` succeeds exactly on {14, 15, 16, 20, 25, 31, 36};
an unmapped id yields the hard error carrying the value; each mapped id
dispatches to exactly its own payload grammar; and `DynamicObject::read`
fails with that error on an unmapped id no matter what bytes follow —
the object is never defaulted or skipped. -/
theorem id_dispatch_table :
    (∀ v : Nat, exceptIsOk (Id.try_from v) = true
      ↔ v ∈ ([14, 15, 16, 20, 25, 31, 36] : List Nat))
    ∧ (∀ v : Nat, v ∉ ([14, 15, 16, 20, 25, 31, 36] : List Nat) →
      Id.try_from v = .error (.unhandledId v))
    ∧ (DynamicObjectKind.read Id.Dynamic = DynamicObjectKind.dynamic
      ∧ DynamicObjectKind.read Id.Animation = DynamicObjectKind.animation
      ∧ DynamicObjectKind.read Id.RepeatableTouchplate
          = DynamicObjectKind.repeatable_touchplate
      ∧ DynamicObjectKind.read Id.Glass = DynamicObjectKind.glass
      ∧ DynamicObjectKind.read Id.OneTimeTouchplate
          = DynamicObjectKind.one_time_touchplate
      ∧ DynamicObjectKind.read Id.Halo = DynamicObjectKind.halo
      ∧ DynamicObjectKind.read Id.StaticEffect
          = DynamicObjectKind.static_effect)
    ∧ (∀ (sz id : Nat) (nm nm2 : List Nat) (t : TransformationMatrix)
        (rest : List Nat), sz < 2 ^ 32 → id < 2 ^ 32 → StrOk nm →
        nm ≠ VERSION_BYTES → StrOk nm2 → t.Valid →
        id ∉ ([14, 15, 16, 20, 25, 31, 36] : List Nat) →
        DynamicObject.read (encU32 sz ++ (encU32 id ++ (encCString nm
          ++ (encCString nm2 ++ (encTm t ++ rest)))))
          = .error (.unhandledId id)) := by
  refine ⟨?_, fun v hv => try_from_unmapped v hv,
    ⟨rfl, rfl, rfl, rfl, rfl, rfl, rfl⟩, ?_⟩
  · intro v
    simp only [Id.try_from, Id.toU32]
    split_ifs with h1 h2 h3 h4 h5 h6 h7 <;>
      simp_all [exceptIsOk]
  · intro sz id nm nm2 t rest hsz hid hnm hv hnm2 ht hmem
    have hfail := try_from_unmapped id hmem
    simp only [DynamicObject.read, bind_apply, ctx_apply,
      section_header_enc sz id nm hsz hid hnm hv,
      read_cstring_enc nm2 hnm2, tm_read_enc t ht, hfail, throw_apply]

/-- Witness instantiating C7's hard-failure clause at the unmapped id 17
with arbitrary trailing bytes. -/
theorem id_dispatch_table_witness :
    DynamicObject.read (encU32 0 ++ (encU32 17 ++ (encCString []
        ++ (encCString [] ++ (encTm ⟨⟨0, 0, 0⟩, ⟨0, 0, 0⟩, ⟨0, 0, 0⟩,
          ⟨0, 0, 0⟩⟩ ++ [5, 6, 7])))))
      = .error (.unhandledId 17) :=
  id_dispatch_table.2.2.2 0 17 [] []
    ⟨⟨0, 0, 0⟩, ⟨0, 0, 0⟩, ⟨0, 0, 0⟩, ⟨0, 0, 0⟩⟩ [5, 6, 7]
    (by norm_num) (by norm_num) (by norm_num [StrOk]) (by decide)
    (by norm_num [StrOk])
    (by norm_num [TransformationMatrix.Valid, Vec3f.Valid]) (by decide)

/-! ## Claim C2: Latin-1 remap versus `String::from_utf8` -/

set_option maxRecDepth 10000 in
theorem latin1_bytes : ∀ (s : List Nat), (∀ b ∈ s, b < 256) →
    (latin1_to_utf8 s).data.map Char.toNat = s
  | [], _ => rfl
  | b :: t, hs => by
    have hb : b < 256 := hs b (by simp)
    have ih0 := latin1_bytes t (fun y hy => hs y (by simp [hy]))
    have ih : (t.map Char.ofNat).map Char.toNat = t := ih0
    have hchar : ∀ x, x < 256 → (Char.ofNat x).toNat = x := by decide
    show ((b :: t).map Char.ofNat).map Char.toNat = b :: t
    simp only [List.map_cons, ih, hchar b hb]

/-- C2 (code bug): `latin1_to_utf8` itself is the byte-identical remap
the claim describes — but the Glass dynamic-object name and the
indexed-name (`EIndices`) text do NOT go through it: they are decoded
with `String::from_utf8`, which rejects the isolated Latin-1 byte 0xE9
("é") that the byte-identical remap would preserve. -/
theorem glass_eindices_not_latin1 :
    (∀ s : List Nat, (∀ b ∈ s, b < 256) →
      (latin1_to_utf8 s).data.map Char.toNat = s)
    ∧ DynamicObjectKind.glass (encCString [0xE9] ++ []) = .error .badUtf8
    ∧ EIndices.read (encCString [0xE9] ++ (encU32 0 ++ encU32 0))
        = .error .badUtf8 :=
  ⟨latin1_bytes, by rfl, by rfl⟩

/-- Witness instantiating C2's byte-identity clause at the Latin-1 byte
0xE9. -/
theorem glass_eindices_not_latin1_witness :
    (latin1_to_utf8 [0xE9]).data.map Char.toNat = [0xE9] :=
  glass_eindices_not_latin1.1 [0xE9] (by decide)

/-! ## Claim C8: magic and terminator validation -/

theorem map_header_enc (ts : Nat) (hts : ts < 2 ^ 32) (rest : List Nat) :
    MapHeader.read (encCString MAGIC ++ (encU32 ts ++ rest))
      = .ok (⟨ts⟩, rest) := by
  simp only [MapHeader.read, bind_apply, ctx_apply,
    read_cstring_enc MAGIC (by norm_num [StrOk, MAGIC]),
    beq_self_eq_true, if_true, read_u32_enc ts hts, Rd.pure]

theorem map_header_mismatch (s : List Nat) (hs : StrOk s) (hne : s ≠ MAGIC)
    (rest : List Nat) :
    MapHeader.read (encCString s ++ rest) = .error (.magicMismatch s) := by
  have hbeq : (s == MAGIC) = false := by
    simp only [beq_eq_false_iff_ne, ne_eq]
    exact hne
  simp only [MapHeader.read, bind_apply, ctx_apply, read_cstring_enc s hs,
    hbeq, Bool.false_eq_true, if_false, throw_apply]

/-- A section header's raw fields: the discarded byte size, the id, the
name bytes. -/
structure SecHdr where
  sz : Nat
  id : Nat
  nm : List Nat

/-- A section header is encodable and its name is not the "Version"
convention trigger. -/
def SecHdr.Valid (h : SecHdr) : Prop :=
  h.sz < 2 ^ 32 ∧ h.id < 2 ^ 32 ∧ StrOk h.nm ∧ h.nm ≠ VERSION_BYTES

/-- Byte layout of a long-form section header. -/
def encSecHdr (h : SecHdr) : List Nat :=
  encU32 h.sz ++ (encU32 h.id ++ encCString h.nm)

theorem materials_read_empty (h : SecHdr) (hh : h.Valid) (rest : List Nat) :
    Materials.read (encSecHdr h ++ (encU32 0 ++ rest))
      = .ok ({ id := h.id, materials := [] }, rest) := by
  obtain ⟨h1, h2, h3, h4⟩ := hh
  simp only [Materials.read, encSecHdr, bind_apply, ctx_apply,
    List.append_assoc, section_header_enc h.sz h.id h.nm h1 h2 h3 h4,
    read_u32_enc 0 (by norm_num), readLoop_zero, Rd.pure]

theorem geometries_read_empty (h : SecHdr) (hh : h.Valid) (rest : List Nat) :
    Geometries.read (encSecHdr h ++ (encU32 0 ++ rest))
      = .ok ({ id := h.id, objects := [] }, rest) := by
  obtain ⟨h1, h2, h3, h4⟩ := hh
  simp only [Geometries.read, encSecHdr, bind_apply, ctx_apply,
    List.append_assoc, section_header_enc h.sz h.id h.nm h1 h2 h3 h4,
    read_u32_enc 0 (by norm_num), readLoop_zero, Rd.pure]

theorem portals_read_empty (h : SecHdr) (hh : h.Valid) (rest : List Nat) :
    Portals.read (encSecHdr h ++ (encU32 0 ++ rest))
      = .ok ({ id := h.id, name := latin1_to_utf8 h.nm, portals := [] },
             rest) := by
  obtain ⟨h1, h2, h3, h4⟩ := hh
  simp only [Portals.read, encSecHdr, bind_apply, ctx_apply,
    List.append_assoc, section_header_enc h.sz h.id h.nm h1 h2 h3 h4,
    read_u32_enc 0 (by norm_num), readLoop_zero, Rd.pure]

theorem lights_read_enc (h : SecHdr) (hh : h.Valid) (n : Nat)
    (hn : n < 2 ^ 32) (rest : List Nat) :
    Lights.read (encSecHdr h ++ (encU32 n ++ rest))
      = .ok ({ id := h.id, name := latin1_to_utf8 h.nm, light_count := n },
             rest) := by
  obtain ⟨h1, h2, h3, h4⟩ := hh
  simp only [Lights.read, encSecHdr, bind_apply, ctx_apply,
    List.append_assoc, section_header_enc h.sz h.id h.nm h1 h2 h3 h4,
    read_u32_enc n hn, Rd.pure]

theorem dynamic_objects_read_empty (h : SecHdr) (hh : h.Valid)
    (rest : List Nat) :
    DynamicObjects.read (encSecHdr h ++ (encU32 0 ++ rest))
      = .ok ({ id := h.id, name := latin1_to_utf8 h.nm,
               dynamic_objects := [] }, rest) := by
  obtain ⟨h1, h2, h3, h4⟩ := hh
  simp only [DynamicObjects.read, encSecHdr, bind_apply, ctx_apply,
    List.append_assoc, section_header_enc h.sz h.id h.nm h1 h2 h3 h4,
    read_u32_enc 0 (by norm_num), readLoop_zero, Rd.pure]

theorem rooms_read_empty (h : SecHdr) (hh : h.Valid) (rest : List Nat) :
    Rooms.read (encSecHdr h ++ (encU32 0 ++ rest))
      = .ok ({ section_id := h.id, section_name := latin1_to_utf8 h.nm,
               rooms := [] }, rest) := by
  obtain ⟨h1, h2, h3, h4⟩ := hh
  simp only [Rooms.read, encSecHdr, bind_apply, ctx_apply,
    List.append_assoc, section_header_enc h.sz h.id h.nm h1 h2 h3 h4,
    read_u32_enc 0 (by norm_num), readLoop_zero, Rd.pure]

theorem transitions_read_empty (h : SecHdr) (hh : h.Valid)
    (rest : List Nat) :
    Transitions.read (encSecHdr h ++ (encU32 0 ++ rest))
      = .ok ({ section_id := h.id, section_name := latin1_to_utf8 h.nm,
               transitions := [] }, rest) := by
  obtain ⟨h1, h2, h3, h4⟩ := hh
  simp only [Transitions.read, encSecHdr, bind_apply, ctx_apply,
    List.append_assoc, section_header_enc h.sz h.id h.nm h1 h2 h3 h4,
    read_u32_enc 0 (by norm_num), readLoop_zero, Rd.pure]

theorem planning_levels_read_empty (h : SecHdr) (hh : h.Valid)
    (rest : List Nat) :
    PlanningLevels.read (encSecHdr h ++ (encU32 0 ++ rest))
      = .ok ({ section_id := h.id, section_name := latin1_to_utf8 h.nm,
               levels := [] }, rest) := by
  obtain ⟨h1, h2, h3, h4⟩ := hh
  simp only [PlanningLevels.read, encSecHdr, bind_apply, ctx_apply,
    List.append_assoc, section_header_enc h.sz h.id h.nm h1 h2 h3 h4,
    read_u32_enc 0 (by norm_num), readLoop_zero, Rd.pure]

/-- The minimal MAP: magic string, timestamp, eight sections each with
count 0 (the light count may be any value since lights carry no list),
up to but not including the terminator string. -/
def encMinimalMap (ts : Nat) (h1 h2 h3 h4 h5 h6 h7 h8 : SecHdr)
    (nLights : Nat) : List Nat :=
  encCString MAGIC ++ (encU32 ts
    ++ (encSecHdr h1 ++ (encU32 0
    ++ (encSecHdr h2 ++ (encU32 0
    ++ (encSecHdr h3 ++ (encU32 0
    ++ (encSecHdr h4 ++ (encU32 nLights
    ++ (encSecHdr h5 ++ (encU32 0
    ++ (encSecHdr h6 ++ (encU32 0
    ++ (encSecHdr h7 ++ (encU32 0
    ++ (encSecHdr h8 ++ encU32 0))))))))))))))))

/-- C8 (amended): the magic is validated as a length-prefixed string at
offset 0 whose content must equal the 12-byte literal `BeginMapv2.1`
(mismatch fails with the observed bytes); after the eight top-level
sections a length-prefixed string whose content is `EndMap` must follow,
anything else failing as a missing terminator; a `Map` is returned only
when both checks pass. -/
theorem map_delimiters :
    (∀ (ts : Nat), ts < 2 ^ 32 → ∀ rest : List Nat,
      MapHeader.read (encCString MAGIC ++ (encU32 ts ++ rest))
        = .ok (⟨ts⟩, rest))
    ∧ (∀ s : List Nat, StrOk s → s ≠ MAGIC → ∀ rest : List Nat,
      MapHeader.read (encCString s ++ rest) = .error (.magicMismatch s))
    ∧ (∀ (ts : Nat) (h1 h2 h3 h4 h5 h6 h7 h8 : SecHdr) (nLights : Nat),
      ts < 2 ^ 32 → nLights < 2 ^ 32 →
      h1.Valid → h2.Valid → h3.Valid → h4.Valid → h5.Valid → h6.Valid →
      h7.Valid → h8.Valid → ∀ rest : List Nat,
      (Map.read (encMinimalMap ts h1 h2 h3 h4 h5 h6 h7 h8 nLights
          ++ (encCString END ++ rest))
        = .ok ({ header := ⟨ts⟩,
                 materials := { id := h1.id, materials := [] },
                 geometries := { id := h2.id, objects := [] },
                 portals := { id := h3.id, name := latin1_to_utf8 h3.nm,
                              portals := [] },
                 lights := { id := h4.id, name := latin1_to_utf8 h4.nm,
                             light_count := nLights },
                 dynamic_objects := { id := h5.id,
                                      name := latin1_to_utf8 h5.nm,
                                      dynamic_objects := [] },
                 rooms := { section_id := h6.id,
                            section_name := latin1_to_utf8 h6.nm,
                            rooms := [] },
                 transitions := { section_id := h7.id,
                                  section_name := latin1_to_utf8 h7.nm,
                                  transitions := [] },
                 planning_levels := { section_id := h8.id,
                                      section_name := latin1_to_utf8 h8.nm,
                                      levels := [] } }, rest))
      ∧ (∀ e : List Nat, StrOk e → e ≠ END →
        Map.read (encMinimalMap ts h1 h2 h3 h4 h5 h6 h7 h8 nLights
            ++ (encCString e ++ rest))
          = .error .missingEnd)) := by
  refine ⟨map_header_enc, map_header_mismatch, ?_⟩
  intro ts h1 h2 h3 h4 h5 h6 h7 h8 nLights hts hnL hv1 hv2 hv3 hv4 hv5 hv6
    hv7 hv8 rest
  constructor
  · simp only [Map.read, encMinimalMap, bind_apply, ctx_apply,
      List.append_assoc, map_header_enc ts hts,
      materials_read_empty h1 hv1, geometries_read_empty h2 hv2,
      portals_read_empty h3 hv3, lights_read_enc h4 hv4 nLights hnL,
      dynamic_objects_read_empty h5 hv5, rooms_read_empty h6 hv6,
      transitions_read_empty h7 hv7, planning_levels_read_empty h8 hv8,
      read_cstring_enc END (by norm_num [StrOk, END]), beq_self_eq_true,
      if_true, Rd.pure]
  · intro e he hne
    have hbeq : (e == END) = false := by
      simp only [beq_eq_false_iff_ne, ne_eq]
      exact hne
    simp only [Map.read, encMinimalMap, bind_apply, ctx_apply,
      List.append_assoc, map_header_enc ts hts,
      materials_read_empty h1 hv1, geometries_read_empty h2 hv2,
      portals_read_empty h3 hv3, lights_read_enc h4 hv4 nLights hnL,
      dynamic_objects_read_empty h5 hv5, rooms_read_empty h6 hv6,
      transitions_read_empty h7 hv7, planning_levels_read_empty h8 hv8,
      read_cstring_enc e he, hbeq, Bool.false_eq_true, if_false,
      throw_apply]

/-- C8 (refuting the claim as stated): a buffer that really does carry
the 12-byte ASCII literal `BeginMapv2.1` at offset 0, followed by a
timestamp and plenty of further bytes, is REJECTED by the header reader,
because the magic is actually read as a length-prefixed string (the
literal must sit at offset 4 behind a 32-bit length). -/
theorem map_magic_not_at_offset0 :
    exceptIsOk (MapHeader.read (MAGIC ++ (encU32 0 ++ List.replicate 64 0)))
      = false := by
  decide

/-- Witness instantiating C8's minimal-map clause at concrete headers. -/
theorem map_delimiters_witness :
    Map.read (encMinimalMap 7 ⟨0, 1, [65]⟩ ⟨0, 2, [66]⟩ ⟨0, 3, [67]⟩
        ⟨0, 4, [68]⟩ ⟨0, 5, [69]⟩ ⟨0, 6, [70]⟩ ⟨0, 7, [71]⟩ ⟨0, 8, [72]⟩ 9
        ++ (encCString END ++ []))
      = .ok ({ header := ⟨7⟩,
               materials := { id := 1, materials := [] },
               geometries := { id := 2, objects := [] },
               portals := { id := 3, name := latin1_to_utf8 [67],
                            portals := [] },
               lights := { id := 4, name := latin1_to_utf8 [68],
                           light_count := 9 },
               dynamic_objects := { id := 5, name := latin1_to_utf8 [69],
                                    dynamic_objects := [] },
               rooms := { section_id := 6, section_name := latin1_to_utf8 [70],
                          rooms := [] },
               transitions := { section_id := 7,
                                section_name := latin1_to_utf8 [71],
                                transitions := [] },
               planning_levels := { section_id := 8,
                                    section_name := latin1_to_utf8 [72],
                                    levels := [] } }, []) :=
  (map_delimiters.2.2 7 ⟨0, 1, [65]⟩ ⟨0, 2, [66]⟩ ⟨0, 3, [67]⟩ ⟨0, 4, [68]⟩
    ⟨0, 5, [69]⟩ ⟨0, 6, [70]⟩ ⟨0, 7, [71]⟩ ⟨0, 8, [72]⟩ 9
    (by norm_num) (by norm_num)
    (by norm_num [SecHdr.Valid, StrOk]; decide)
    (by norm_num [SecHdr.Valid, StrOk]; decide)
    (by norm_num [SecHdr.Valid, StrOk]; decide)
    (by norm_num [SecHdr.Valid, StrOk]; decide)
    (by norm_num [SecHdr.Valid, StrOk]; decide)
    (by norm_num [SecHdr.Valid, StrOk]; decide)
    (by norm_num [SecHdr.Valid, StrOk]; decide)
    (by norm_num [SecHdr.Valid, StrOk]; decide) []).1
